import Mathlib

/-!
Verification of the apartment-qa-testing browser-automation suite: a shallow
embedding of the suite's data factories, admin-table matching, selector
fallback and retry helpers, screenshot naming, wishlist component and
workflow orchestration, with theorems settling the frozen claims about them.
-/

namespace ApartmentQA

/-! ## Python string primitives -/

/-- Python `pat in hay` on strings: substring containment (the empty pattern
is contained in every string, as in Python). -/
def strContains (hay pat : String) : Bool :=
  decide (pat.data <:+: hay.data)

/-- Python `s.lower()`: lowercase character by character (the suite only
compares ASCII names, emails and CSS classes this way). -/
def lowerStr (t : String) : String :=
  String.mk (t.data.map Char.toLower)

/-- A value stored in a `PersonData` field.  The suite stores strings and
booleans in those fields; `dataclasses.replace` can additionally reset a
field to `None`, which the embedding models with `Option`. -/
inductive PyLit where
  | s (val : String)
  | b (val : Bool)
deriving DecidableEq, Repr

/-- Python `str(x)` as an f-string renders it: `None` becomes "None",
booleans become "True"/"False", strings stay themselves. -/
def pyStr (v : Option PyLit) : String :=
  match v with
  | none => "None"
  | some (.s t) => t
  | some (.b true) => "True"
  | some (.b false) => "False"

/-- Python `x.lower()` on a field value: succeeds with the lowercased string
when the value is a string, raises (AttributeError) otherwise. -/
def pyLowerField (v : Option PyLit) : Except Unit String :=
  match v with
  | some (.s t) => .ok (lowerStr t)
  | _ => .error ()

/-! ## PersonData

The dataclass `PersonData` is imported from `data.models` throughout the
suite but `data/models.py` does not declare it (see the import-wellformedness
theorem below); its field set is reconstructed here from every constructor
call in `data/factories.py` and every attribute access in the page objects.
All fields default to `none`, and values are dynamic (`Option PyLit`) the way
Python dataclass fields are. -/

structure PersonData where
  salutation : Option PyLit := none
  first_name : Option PyLit := none
  last_name : Option PyLit := none
  date_of_birth : Option PyLit := none
  civil_status : Option PyLit := none
  nationality : Option PyLit := none
  residency_status : Option PyLit := none
  type_of_tenant : Option PyLit := none
  phone_number : Option PyLit := none
  email : Option PyLit := none
  street_and_number : Option PyLit := none
  post_code : Option PyLit := none
  city : Option PyLit := none
  country : Option PyLit := none
  move_in_date : Option PyLit := none
  employment_status : Option PyLit := none
  credit_check_type : Option PyLit := none
  company_start_date : Option PyLit := none
  employment_terminated : Option PyLit := none
  company_street : Option PyLit := none
  company_postcode : Option PyLit := none
  company_city : Option PyLit := none
  company_contact_person : Option PyLit := none
  company_contact_phone : Option PyLit := none
  company_contact_email : Option PyLit := none
  place_of_birth : Option PyLit := none
  place_of_citizenship : Option PyLit := none
  current_rental_situation : Option PyLit := none
  civil_law_residence : Option PyLit := none
  relocation_last_3_years : Option PyLit := none
  community_member : Option PyLit := none
  education : Option PyLit := none
  gross_annual_income : Option PyLit := none
  annual_taxable_income : Option PyLit := none
  personal_liability_insurance : Option PyLit := none
  household_insurance : Option PyLit := none
  company_name : Option PyLit := none
  business_phone : Option PyLit := none
  living_in_switzerland_since : Option PyLit := none
deriving DecidableEq, Repr

/-- The field names of `PersonData`, for stating which fields a factory
mutator touches (`dataclasses.replace` addresses fields by keyword name). -/
inductive Field where
  | salutation
  | first_name
  | last_name
  | date_of_birth
  | civil_status
  | nationality
  | residency_status
  | type_of_tenant
  | phone_number
  | email
  | street_and_number
  | post_code
  | city
  | country
  | move_in_date
  | employment_status
  | credit_check_type
  | company_start_date
  | employment_terminated
  | company_street
  | company_postcode
  | company_city
  | company_contact_person
  | company_contact_phone
  | company_contact_email
  | place_of_birth
  | place_of_citizenship
  | current_rental_situation
  | civil_law_residence
  | relocation_last_3_years
  | community_member
  | education
  | gross_annual_income
  | annual_taxable_income
  | personal_liability_insurance
  | household_insurance
  | company_name
  | business_phone
  | living_in_switzerland_since
deriving DecidableEq, Repr

/-- Read a `PersonData` field by name (Python attribute access). -/
def getField (p : PersonData) (f : Field) : Option PyLit :=
  match f with
  | .salutation => p.salutation
  | .first_name => p.first_name
  | .last_name => p.last_name
  | .date_of_birth => p.date_of_birth
  | .civil_status => p.civil_status
  | .nationality => p.nationality
  | .residency_status => p.residency_status
  | .type_of_tenant => p.type_of_tenant
  | .phone_number => p.phone_number
  | .email => p.email
  | .street_and_number => p.street_and_number
  | .post_code => p.post_code
  | .city => p.city
  | .country => p.country
  | .move_in_date => p.move_in_date
  | .employment_status => p.employment_status
  | .credit_check_type => p.credit_check_type
  | .company_start_date => p.company_start_date
  | .employment_terminated => p.employment_terminated
  | .company_street => p.company_street
  | .company_postcode => p.company_postcode
  | .company_city => p.company_city
  | .company_contact_person => p.company_contact_person
  | .company_contact_phone => p.company_contact_phone
  | .company_contact_email => p.company_contact_email
  | .place_of_birth => p.place_of_birth
  | .place_of_citizenship => p.place_of_citizenship
  | .current_rental_situation => p.current_rental_situation
  | .civil_law_residence => p.civil_law_residence
  | .relocation_last_3_years => p.relocation_last_3_years
  | .community_member => p.community_member
  | .education => p.education
  | .gross_annual_income => p.gross_annual_income
  | .annual_taxable_income => p.annual_taxable_income
  | .personal_liability_insurance => p.personal_liability_insurance
  | .household_insurance => p.household_insurance
  | .company_name => p.company_name
  | .business_phone => p.business_phone
  | .living_in_switzerland_since => p.living_in_switzerland_since

/-- Set one `PersonData` field by name, leaving the rest unchanged: the
meaning of a single keyword argument to `dataclasses.replace` (which builds a
new object and never mutates its input). -/
def setField (p : PersonData) (f : Field) (v : Option PyLit) : PersonData :=
  match f with
  | .salutation => { p with salutation := v }
  | .first_name => { p with first_name := v }
  | .last_name => { p with last_name := v }
  | .date_of_birth => { p with date_of_birth := v }
  | .civil_status => { p with civil_status := v }
  | .nationality => { p with nationality := v }
  | .residency_status => { p with residency_status := v }
  | .type_of_tenant => { p with type_of_tenant := v }
  | .phone_number => { p with phone_number := v }
  | .email => { p with email := v }
  | .street_and_number => { p with street_and_number := v }
  | .post_code => { p with post_code := v }
  | .city => { p with city := v }
  | .country => { p with country := v }
  | .move_in_date => { p with move_in_date := v }
  | .employment_status => { p with employment_status := v }
  | .credit_check_type => { p with credit_check_type := v }
  | .company_start_date => { p with company_start_date := v }
  | .employment_terminated => { p with employment_terminated := v }
  | .company_street => { p with company_street := v }
  | .company_postcode => { p with company_postcode := v }
  | .company_city => { p with company_city := v }
  | .company_contact_person => { p with company_contact_person := v }
  | .company_contact_phone => { p with company_contact_phone := v }
  | .company_contact_email => { p with company_contact_email := v }
  | .place_of_birth => { p with place_of_birth := v }
  | .place_of_citizenship => { p with place_of_citizenship := v }
  | .current_rental_situation => { p with current_rental_situation := v }
  | .civil_law_residence => { p with civil_law_residence := v }
  | .relocation_last_3_years => { p with relocation_last_3_years := v }
  | .community_member => { p with community_member := v }
  | .education => { p with education := v }
  | .gross_annual_income => { p with gross_annual_income := v }
  | .annual_taxable_income => { p with annual_taxable_income := v }
  | .personal_liability_insurance => { p with personal_liability_insurance := v }
  | .household_insurance => { p with household_insurance := v }
  | .company_name => { p with company_name := v }
  | .business_phone => { p with business_phone := v }
  | .living_in_switzerland_since => { p with living_in_switzerland_since := v }

/-- dataclasses.replace(person, **kwargs): every named field is replaced by
its new value, all other fields are copied from `person`. -/
def replaceFields (p : PersonData) (kwargs : List (Field × Option PyLit)) : PersonData :=
  kwargs.foldl (fun q kv => setField q kv.1 kv.2) p

/-- TestDataFactory.make_invalid_email: replace(person, email="invalid-email-format"). -/
def make_invalid_email (p : PersonData) : PersonData :=
  replaceFields p [(.email, some (.s "invalid-email-format"))]

/-- TestDataFactory.make_invalid_phone: replace(person, phone_number="123"). -/
def make_invalid_phone (p : PersonData) : PersonData :=
  replaceFields p [(.phone_number, some (.s "123"))]

/-- TestDataFactory.make_future_birth_date: replace(person, date_of_birth="01.01.2030"). -/
def make_future_birth_date (p : PersonData) : PersonData :=
  replaceFields p [(.date_of_birth, some (.s "01.01.2030"))]

/-- TestDataFactory.make_invalid_postal_code: replace(person, post_code="99999", city="InvalidCity"). -/
def make_invalid_postal_code (p : PersonData) : PersonData :=
  replaceFields p [(.post_code, some (.s "99999")), (.city, some (.s "InvalidCity"))]

/-- TestDataFactory.make_missing_required_field: replace(person, **(field_name: None)). -/
def make_missing_required_field (p : PersonData) (field_name : Field) : PersonData :=
  replaceFields p [(field_name, none)]

/-- TestDataFactory.customize_person: replace(base_person, **kwargs). -/
def customize_person (base_person : PersonData) (kwargs : List (Field × Option PyLit)) : PersonData :=
  replaceFields base_person kwargs

/-! ## Admin-table matching (pages/admin_applications_page.py) -/

/-- The substring test of `_manual_row_search` for one row, inside the
per-row `try` (lines 332-343).  Python short-circuits
`last_name.lower() in row_text.lower() or email.lower() in row_text.lower()
or (first_name.lower() in row_text.lower() and last_name.lower() in
row_text.lower())` left to right; an exception (a field that is not a
string) escapes to the inner `except`. -/
def rowMatchE (main_applicant : PersonData) (row_text : String) : Except Unit Bool :=
  let tl := lowerStr row_text
  match pyLowerField main_applicant.last_name with
  | .error e => .error e
  | .ok ln =>
    if strContains tl ln then .ok true
    else
      match pyLowerField main_applicant.email with
      | .error e => .error e
      | .ok em =>
        if strContains tl em then .ok true
        else
          match pyLowerField main_applicant.first_name with
          | .error e => .error e
          | .ok fn => .ok (strContains tl fn && strContains tl ln)

/-- One row of `_manual_row_search`'s loop: `row.text_content()` may be
missing (`None`); `if row_text and (...)` skips falsy (missing or empty)
text before the substring tests run, and the inner `except: continue`
turns an exception into a non-match. -/
def rowMatches (main_applicant : PersonData) (row_text : Option String) : Bool :=
  match row_text with
  | none => false
  | some t =>
    if t = "" then false
    else
      match rowMatchE main_applicant t with
      | .ok b => b
      | .error _ => false

/-- AdminApplicationsPage._manual_row_search (lines 325-350): scan the `tr`
rows (given here by their text contents) in order and return the first row
whose text passes `rowMatches`; `none` when no row matches. -/
def manual_row_search (main_applicant : PersonData) (rows : List (Option String)) :
    Option (Option String) :=
  rows.find? (rowMatches main_applicant)

/-- The four name variants `_verify_table_data` builds with f-strings and
lowercases (lines 420-425): "first last", "last, first", "last", "first". -/
def nameVariants (main_applicant : PersonData) : List String :=
  [ lowerStr (pyStr main_applicant.first_name ++ " " ++ pyStr main_applicant.last_name)
  , lowerStr (pyStr main_applicant.last_name ++ ", " ++ pyStr main_applicant.first_name)
  , lowerStr (pyStr main_applicant.last_name)
  , lowerStr (pyStr main_applicant.first_name) ]

/-- The `name_found` loop of `_verify_table_data` (lines 427-431): set the
flag when the lowercased row text contains one of the four variants. -/
def verify_name_found (main_applicant : PersonData) (full_row_text : String) : Bool :=
  (nameVariants main_applicant).any (fun v => strContains (lowerStr full_row_text) v)

/-- What `_extract_row_data` hands to `_verify_table_data`: the row's text
(the suite also stores individual cells, which no verification reads). -/
structure RowData where
  full_row_text : String
deriving DecidableEq, Repr

/-- The verification flags `_verify_table_data` computes (lines 410-415). -/
structure TableVerification where
  name_found : Bool := false
  email_found : Bool := false
  date_found : Bool := false
  additional_data_found : Bool := false
deriving DecidableEq, Repr

/-- Python truthiness of a field value (`if main_applicant.move_in_date`). -/
def pyTruthy (v : Option PyLit) : Bool :=
  match v with
  | none => false
  | some (.s t) => decide (t ≠ "")
  | some (.b b) => b

/-- The move-in-date check of `_verify_table_data` (lines 437-439): a truthy
string field is tested for containment in the (already lowercased) row text;
a truthy non-string raises a TypeError, carrying the flags set so far to the
enclosing `except`. -/
def dateCheck (v : TableVerification) (main_applicant : PersonData) (ft : String) :
    Except TableVerification TableVerification :=
  match main_applicant.move_in_date with
  | none => .ok v
  | some (.b false) => .ok v
  | some (.b true) => .error v
  | some (.s t) => .ok (if t = "" then v else { v with date_found := strContains ft t })

/-- One family member of the `all_applicants[1:]` loop (lines 443-446):
`first_name.lower() in full_text or last_name.lower() in full_text`. -/
def familyMemberHit (ft : String) (a : PersonData) : Except Unit Bool := do
  let fn ← pyLowerField a.first_name
  if strContains ft fn then return true
  else
    let ln ← pyLowerField a.last_name
    return (strContains ft ln)

/-- The `family_members_found` counter of `_verify_table_data`. -/
def countHits (ft : String) : List PersonData → Except Unit Nat
  | [] => .ok 0
  | a :: rest => do
    let b ← familyMemberHit ft a
    let n ← countHits ft rest
    return (if b then n + 1 else n)

/-- The additional-family-members check (lines 441-450), skipped when there
is at most one applicant; an exception carries the flags set so far. -/
def additionalCheck (v : TableVerification) (all_applicants : List PersonData) (ft : String) :
    Except TableVerification TableVerification :=
  match all_applicants with
  | [] => .ok v
  | [_] => .ok v
  | _ :: rest =>
    match countHits ft rest with
    | .error _ => .error v
    | .ok n => .ok (if 0 < n then { v with additional_data_found := true } else v)

/-- AdminApplicationsPage._verify_table_data (lines 406-460): compute the
four flags in source order; any exception is caught by the function's own
`except`, which returns the flags set so far. -/
def verify_table_data (row : RowData) (main_applicant : PersonData)
    (all_applicants : List PersonData) : TableVerification :=
  let ft := lowerStr row.full_row_text
  let v1 : TableVerification := { name_found := verify_name_found main_applicant row.full_row_text }
  match pyLowerField main_applicant.email with
  | .error _ => v1
  | .ok em =>
    let v2 := { v1 with email_found := strContains ft em }
    match dateCheck v2 main_applicant ft with
    | .error v => v
    | .ok v3 =>
      match additionalCheck v3 all_applicants ft with
      | .error v => v
      | .ok v4 => v4

/-! ## Selector fallback and click retry (utils/element_interactor.py) -/

/-- A DOM element as the fallback helpers see it: only visibility matters. -/
structure DomElement where
  visible : Bool
deriving DecidableEq, Repr

/-- The page's `query_selector_all`, as `find_visible_elements` uses it:
querying a selector either raises or yields the matched elements. -/
def PageQuery : Type := String → Except String (List DomElement)

/-- ElementInteractor.find_visible_elements (lines 44-59): try each selector
in order; a raising selector is skipped (`except: continue`), the visible
elements of the first selector that has any are returned, and the loop
falls through to `[]`. -/
def find_visible_elements (page : PageQuery) : List String → List DomElement
  | [] => []
  | selector :: rest =>
    match page selector with
    | .error _ => find_visible_elements page rest
    | .ok elements =>
      let visible_elements := elements.filter (fun e => e.visible)
      if visible_elements.isEmpty then find_visible_elements page rest
      else visible_elements

/-- The visible elements one selector yields; a raising selector yields
none.  Used to state what `find_visible_elements` returns. -/
def visibleOf (page : PageQuery) (selector : String) : List DomElement :=
  match page selector with
  | .error _ => []
  | .ok elements => elements.filter (fun e => e.visible)

/-- What one attempt of `click_with_retry`'s loop body amounts to: the
awaited calls succeed and a visible element is found and clicked; or they
succeed but no visible element is there (the body falls through); or one of
them raises (caught by the attempt's `except`). -/
inductive AttemptOutcome where
  | clicked
  | noVisible
  | raised
deriving DecidableEq, Repr

/-- The loop of ElementInteractor.click_with_retry (lines 17-30) from
attempt `i` with `fuel` iterations left (`fuel = max_attempts - i`):
a clicked attempt returns True at once; a fall-through attempt continues; a
raising attempt returns False when it was the last (`attempt ==
max_attempts - 1`) and otherwise sleeps and continues; a finished loop
returns False.  The second component counts the attempts executed. -/
def clickLoop (env : Nat → AttemptOutcome) (max_attempts : Nat) : Nat → Nat → Bool × Nat
  | 0, _ => (false, 0)
  | fuel + 1, i =>
    match env i with
    | .clicked => (true, 1)
    | .noVisible =>
      let r := clickLoop env max_attempts fuel (i + 1)
      (r.1, r.2 + 1)
    | .raised =>
      if i = max_attempts - 1 then (false, 1)
      else
        let r := clickLoop env max_attempts fuel (i + 1)
        (r.1, r.2 + 1)

/-- ElementInteractor.click_with_retry (lines 15-30): run the loop over
`range(max_attempts)`.  Every exception a body raises is consumed by the
attempt's own `except`, so the embedding is a total function into `Bool`
(the caller never sees an exception), paired with the number of attempts
made. -/
def click_with_retry (env : Nat → AttemptOutcome) (max_attempts : Nat) : Bool × Nat :=
  clickLoop env max_attempts max_attempts 0

/-! ## Screenshot naming (utils/screenshot_manager.py) -/

/-- ScreenshotManager: holds the base directory screenshots go to. -/
structure ScreenshotManager where
  base_dir : String
deriving DecidableEq, Repr

/-- ScreenshotManager.capture (lines 14-20): the file name is
`name + ".png"`, the path joins it to `base_dir`, the page screenshot is
taken at that path with the given `full_page` flag, and the path is
returned.  The embedding returns the pair (saved path, full-page flag). -/
def capture (m : ScreenshotManager) (name : String) (full_page : Bool) : String × Bool :=
  (m.base_dir ++ "/" ++ (name ++ ".png"), full_page)

/-- ScreenshotManager.capture_error (lines 22-24): a full-page capture under
the name `"error_" + error_context`. -/
def capture_error (m : ScreenshotManager) (error_context : String) : String × Bool :=
  capture m ("error_" ++ error_context) true

/-! ## Wishlist component (pages/components/wishlist.py) -/

/-- A wishlist button (`span.bewerben`): its visibility and its `class`
attribute (`get_attribute` may return `None`, which the code replaces by
`""` with `or ""`). -/
structure WishlistButton where
  visible : Bool
  classes : Option String
deriving DecidableEq, Repr

/-- The disabled test of WishlistComponent.add_apartment (lines 26-27):
`"disabled" in (classes or "").lower()`. -/
def buttonDisabled (element : WishlistButton) : Bool :=
  strContains (lowerStr (element.classes.getD "")) "disabled"

/-- The loop of WishlistComponent.add_apartment (lines 24-40): the first
visible element decides; disabled returns False without a click, otherwise
the element is clicked and True returned; no visible element returns False.
The second component is the element clicked, if any. -/
def addLoop : List WishlistButton → Bool × Option WishlistButton
  | [] => (false, none)
  | element :: rest =>
    if element.visible then
      if buttonDisabled element then (false, none)
      else (true, some element)
    else addLoop rest

/-- WishlistComponent.add_apartment (lines 17-44): query the apartment
element for `span.bewerben` (which may raise, caught by the outer `except`
returning False) and run the loop over the results. -/
def add_apartment (query : Except String (List WishlistButton)) : Bool × Option WishlistButton :=
  match query with
  | .error _ => (false, none)
  | .ok wishlist_elements => addLoop wishlist_elements

/-! ## Workflow orchestration (test_melon_apartment.py, test_admin_only.py) -/

/-- The phases the two test drivers begin, in the order their source starts
them.  The first eleven belong to
TestCompleteApartmentWorkflow.test_complete_apartment_workflow, the last six
to AdminVerificationTest.run_admin_verification_test. -/
inductive WfEvent where
  | browse
  | findApartments
  | selectApartment
  | getDetails
  | addWishlist
  | wishlistPanel
  | clickApply
  | formVerify
  | formStart
  | formFill
  | formSubmit
  | dataGen
  | adminLogin
  | navApplications
  | tableAnalysis
  | adminVerify
  | resultsProcessing
deriving DecidableEq, Repr

/-- The outcomes that steer test_complete_apartment_workflow's control flow:
whether apartments are found, an apartment is selected, the wishlist click
succeeds, the Apply click (or its URL fallback) opens the form page, and
whether form filling raises. -/
structure WorkflowEnv where
  apartments : Bool
  selectOk : Bool
  wishlistOk : Bool
  applyOk : Bool
  altApplyOk : Bool
  fillRaises : Bool
deriving DecidableEq, Repr

/-- The phases test_complete_apartment_workflow (lines 28-110) begins, in
source order: browsing, apartment search (pytest.fail ends the test when
none is found), selection (pytest.fail on failure), details, the wishlist
attempt (the wishlist-panel wait runs only on success, and the workflow
continues either way), the Apply click with its URL fallback (pytest.fail
when both fail), then the form phases; an exception raised while filling
aborts before submission.  The test ends after submitting: it has no
admin-verification phase. -/
def workflow_trace (env : WorkflowEnv) : List WfEvent :=
  [.browse, .findApartments] ++
    (if env.apartments = false then [] else
      [.selectApartment] ++
        (if env.selectOk = false then [] else
          [.getDetails, .addWishlist] ++
            (if env.wishlistOk then [.wishlistPanel] else []) ++
            [.clickApply] ++
            (if env.applyOk = false && env.altApplyOk = false then [] else
              [.formVerify, .formStart, .formFill] ++
                (if env.fillRaises then [] else [.formSubmit]))))

/-- The phase order the main workflow's source lays its steps out in. -/
def workflowPhaseOrder : List WfEvent :=
  [.browse, .findApartments, .selectApartment, .getDetails, .addWishlist,
   .wishlistPanel, .clickApply, .formVerify, .formStart, .formFill, .formSubmit]

/-- The outcomes steering run_admin_verification_test: whether the admin
login phase and the applications-page navigation complete (each raises on
failure and the outer `except` re-raises). -/
structure AdminTestEnv where
  loginOk : Bool
  navOk : Bool
deriving DecidableEq, Repr

/-- The phases AdminVerificationTest.run_admin_verification_test
(test_admin_only.py lines 19-134) begins, in source order: test-data
generation, admin login, applications-page navigation, table analysis,
applicant search and verification, results processing.  The test never
submits an application: no form phase appears in it. -/
def admin_test_trace (env : AdminTestEnv) : List WfEvent :=
  [.dataGen, .adminLogin] ++
    (if env.loginOk = false then [] else
      [.navApplications] ++
        (if env.navOk = false then [] else
          [.tableAnalysis, .adminVerify, .resultsProcessing]))

/-- The phase order of the standalone admin-verification test. -/
def adminPhaseOrder : List WfEvent :=
  [.dataGen, .adminLogin, .navApplications, .tableAnalysis, .adminVerify,
   .resultsProcessing]

/-! ## Admin verification entry point (admin_applications_page.py lines 173-229) -/

/-- The result dict verify_applicant_in_table builds (lines 186-191): its
four keys, with the two empty-dict initialisations modelled as `none`. -/
structure VerificationResults where
  found_in_table : Bool := false
  data_matches : Option TableVerification := none
  errors : List String := []
  table_row_data : Option RowData := none
deriving DecidableEq, Repr

/-- The environment verify_applicant_in_table runs against:
`waitTable` is the page activity of `_wait_for_applications_table` (its
final un-guarded wait can raise); `findRow` the combined outcome of
`_find_applicant_row` and `_extract_row_data`, both of which catch their own
exceptions; `screenshot` the page screenshot by final file name, which
raises when the page is gone. -/
structure VerifyEnv where
  waitTable : Except String Unit
  findRow : Option RowData
  screenshot : String → Except String Unit

/-- Appending to the `errors` list of the result dict. -/
def addError (r : VerificationResults) (e : String) : VerificationResults :=
  { r with errors := r.errors ++ [e] }

/-- The `except` handler of verify_applicant_in_table (lines 225-229):
append the error message, then capture an error screenshot — an exception
raised by that capture propagates out of the handler (Python semantics);
otherwise the results collected so far are returned. -/
def verifyHandler (env : VerifyEnv) (r : VerificationResults) (e : String) :
    Except String VerificationResults :=
  let r1 := addError r ("Error during verification: " ++ e)
  match env.screenshot "error_applicant_verification_error" with
  | .error e2 => .error e2
  | .ok _ => .ok r1

/-- AdminApplicationsPage.verify_applicant_in_table (lines 173-229): wait
for the table; with no expected data, record the error and return; with no
matching row, record the error, debug, capture an error screenshot and
return; otherwise set `found_in_table`, extract and verify the row data,
capture a success screenshot and return.  Any exception in the `try` body
lands in `verifyHandler`. -/
def verify_applicant_in_table (env : VerifyEnv) (expected_data : List PersonData) :
    Except String VerificationResults :=
  let r0 : VerificationResults := {}
  match env.waitTable with
  | .error e => verifyHandler env r0 e
  | .ok _ =>
    match expected_data with
    | [] => .ok (addError r0 "No main applicant data provided for verification")
    | main_applicant :: _ =>
      match env.findRow with
      | none =>
        let r1 := addError r0 "Applicant not found in applications table"
        match env.screenshot "error_applicant_not_found_in_table" with
        | .error e => verifyHandler env r1 e
        | .ok _ => .ok r1
      | some row =>
        let r1 : VerificationResults :=
          { found_in_table := true
            data_matches := some (verify_table_data row main_applicant expected_data)
            errors := []
            table_row_data := some row }
        match env.screenshot "12_applicant_verified_in_table" with
        | .error e => verifyHandler env r1 e
        | .ok _ => .ok r1

/-! ## Module imports (claim about data/models.py) -/

/-- The top-level names data/models.py defines (lines 5, 11, 21, 34, 60, 84). -/
def modelsDefinedNames : List String :=
  ["ApplicationStatus", "ApartmentDetails", "ParkingRequirements",
   "HouseholdData", "FormData", "TestResult"]

/-- The names `from data.models import ...` pulls in data/factories.py line 7. -/
def factoriesImports : List String :=
  ["FormData", "HouseholdData", "ParkingRequirements", "PersonData"]

/-- The names imported from data.models in pages/admin_applications_page.py line 7. -/
def adminApplicationsImports : List String :=
  ["PersonData", "FormData"]

/-- The names imported from data.models in pages/people_form_page.py line 3. -/
def peopleFormImports : List String :=
  ["PersonData"]

/-- A `from data.models import N1, ..., Nk` succeeds exactly when every
imported name is defined in data/models.py. -/
def importOk (names : List String) : Bool :=
  names.all (fun n => modelsDefinedNames.contains n)

/-! ## Random test-data factory (data/factories.py, config/test_config.py) -/

/-- TestConfig probability constants (config/test_config.py lines 20-29),
as exact rationals. -/
def PARKING_PROBABILITY : Rat := 0.3

/-- TestConfig.CAR_SHARING_PROBABILITY. -/
def CAR_SHARING_PROBABILITY : Rat := 0.2

/-- TestConfig.MOTORBIKE_PROBABILITY. -/
def MOTORBIKE_PROBABILITY : Rat := 0.1

/-- TestConfig.BIKE_PARKING_PROBABILITY. -/
def BIKE_PARKING_PROBABILITY : Rat := 0.7

/-- TestConfig.ADDITIONAL_ROOM_PROBABILITY. -/
def ADDITIONAL_ROOM_PROBABILITY : Rat := 0.25

/-- TestConfig.STORAGE_ROOM_PROBABILITY. -/
def STORAGE_ROOM_PROBABILITY : Rat := 0.4

/-- TestConfig.WORKSHOP_PROBABILITY. -/
def WORKSHOP_PROBABILITY : Rat := 0.15

/-- TestConfig.COWORKING_PROBABILITY. -/
def COWORKING_PROBABILITY : Rat := 0.25

/-- TestConfig.HOME_OFFICE_PROBABILITY. -/
def HOME_OFFICE_PROBABILITY : Rat := 0.6

/-- TestConfig.ACCESSIBILITY_PROBABILITY. -/
def ACCESSIBILITY_PROBABILITY : Rat := 0.05

/-- The string pools create_realistic_applicant draws from
(data/factories.py lines 79-169). -/
def PARKING_REASONS : List String :=
  ["Need car for work commute", "Family transportation needs",
   "Medical appointments", "Weekend travel",
   "Disabled family member transportation"]

/-- TestDataFactory.ROOM_PURPOSES. -/
def ROOM_PURPOSES : List String :=
  ["Home office", "Guest bedroom", "Study room", "Art studio", "Music room",
   "Yoga/exercise space"]

/-- TestDataFactory.STORAGE_PURPOSES. -/
def STORAGE_PURPOSES : List String :=
  ["Seasonal items storage", "Sports equipment", "Documents and files",
   "Household items", "Hobby materials"]

/-- TestDataFactory.WORKSHOP_PURPOSES. -/
def WORKSHOP_PURPOSES : List String :=
  ["Art and painting", "Woodworking", "Photography", "Crafts and DIY",
   "Music production"]

/-- TestDataFactory.HOME_OFFICE_REASONS. -/
def HOME_OFFICE_REASONS : List String :=
  ["Remote work policy", "Freelance work", "Flexible work arrangement",
   "Better work-life balance", "Avoid commuting"]

/-- TestDataFactory.RELOCATION_REASONS. -/
def RELOCATION_REASONS : List String :=
  ["Change of life situation", "Change in income",
   "Change in the place of work", "Change in space requirements",
   "Noise / Emissions", "Price/performance ratio",
   "Problems with janitor/administration", "Problems with neighbors",
   "Reconstruction/Renovation", "Quality of living",
   "Termination by landlord", "Without a permanent residence",
   "Fixed term tenancy", "Other"]

/-- TestDataFactory.COOPERATIVE_RELATIONS. -/
def COOPERATIVE_RELATIONS : List String :=
  ["Current tenant", "Child tenant", "Voluntary member", "No relation"]

/-- TestDataFactory.OBJECT_SOURCES. -/
def OBJECT_SOURCES : List String :=
  ["Real estate platform (Newhome, Erstbezug, Homegate, ...)",
   "Project website", "Facebook", "Instagram", "LinkedIn"]

/-- TestDataFactory.ROOM_AREAS. -/
def ROOM_AREAS : List String :=
  ["10-15 m²", "15-20 m²", "8-12 m²", "12-18 m²"]

/-- TestDataFactory.STORAGE_AREAS. -/
def STORAGE_AREAS : List String :=
  ["3-5 m²", "5-8 m²", "2-4 m²"]

/-- ParkingRequirements (data/models.py lines 21-31). -/
structure ParkingRequirements where
  wants_parking : Bool := false
  regular_spaces : Int := 0
  small_spaces : Int := 0
  large_spaces : Int := 0
  electric_spaces : Int := 0
  electric_small_spaces : Int := 0
  outdoor_spaces : Int := 0
  special_spaces : Int := 0
  reason : Option String := none
deriving DecidableEq, Repr

/-- HouseholdData (data/models.py lines 34-57). -/
structure HouseholdData where
  household_type : Option String := none
  has_pets : Option Bool := none
  has_music_instruments : Option Bool := none
  is_smoker : Option Bool := none
  relocation_reason : Option String := none
  desired_move_date : Option String := none
  mailbox_label : Option String := none
  security_deposit_type : Option String := none
  income_rent_ratio : Option Bool := none
  iban : Option String := none
  bank_name : Option String := none
  account_owner : Option String := none
  motivation : Option String := none
  participation_ideas : Option String := none
  relation_to_cooperative : Option String := none
  relation_type : Option String := none
  object_found_on : Option String := none
  remarks : Option String := none
deriving DecidableEq, Repr

/-- FormData (data/models.py lines 60-81). -/
structure FormData where
  parking : ParkingRequirements := {}
  household : HouseholdData := {}
  wants_car_sharing : Bool := false
  wants_motorbike_parking : Bool := false
  motorbike_spaces : Int := 0
  wants_bike_parking : Bool := false
  bike_spaces : Int := 0
  electric_bike_spaces : Int := 0
  wants_additional_room : Bool := false
  additional_room_purpose : Option String := none
  additional_room_area : Option String := none
  wants_storage_room : Bool := false
  storage_room_purpose : Option String := none
  storage_room_area : Option String := none
  wants_workshop : Bool := false
  workshop_purpose : Option String := none
  wants_coworking : Bool := false
  wants_home_office : Bool := false
  home_office_reason : Option String := none
  needs_obstacle_free : Bool := false
deriving DecidableEq, Repr

/-- The random source create_realistic_applicant consumes: each call to
`random.random()` reads the next value of `floats`, each call to
`random.randint` or `random.choice` the next value of `ints` (one stream
per kind of call, consumed strictly in call order). -/
structure RandState where
  floats : Nat → Rat
  fIdx : Nat
  ints : Nat → Nat
  iIdx : Nat

/-- random.random(): the next float draw. -/
def randomFloat (s : RandState) : Rat × RandState :=
  (s.floats s.fIdx, { s with fIdx := s.fIdx + 1 })

/-- random.randint(a, b): an integer between a and b inclusive. -/
def randint (a b : Int) (s : RandState) : Int × RandState :=
  (a + (s.ints s.iIdx : Int) % (b + 1 - a), { s with iIdx := s.iIdx + 1 })

/-- random.choice(lst): one element of the (never empty) pool. -/
def choice (l : List String) (s : RandState) : String × RandState :=
  (l.getD (s.ints s.iIdx % l.length) "", { s with iIdx := s.iIdx + 1 })

/-- One entry of the parking-type loop (factories.py lines 406-409): a 0.4
gate, and a 1-2 space count drawn only when the gate passes (the field
keeps its default 0 otherwise). -/
def parkingFieldDraw (s : RandState) : Int × RandState :=
  let (d, s1) := randomFloat s
  if d < 0.4 then randint 1 2 s1
  else (0, s1)

/-- The parking block of create_realistic_applicant (lines 394-412): the
PARKING_PROBABILITY gate, then per-type gates for regular, small, large,
electric and outdoor spaces, then a 0.6 gate for a reason drawn from
PARKING_REASONS. -/
def parkingStep (s : RandState) : ParkingRequirements × RandState :=
  let (d, s1) := randomFloat s
  if d < PARKING_PROBABILITY then
    let (v1, s2) := parkingFieldDraw s1
    let (v2, s3) := parkingFieldDraw s2
    let (v3, s4) := parkingFieldDraw s3
    let (v4, s5) := parkingFieldDraw s4
    let (v5, s6) := parkingFieldDraw s5
    let (dr, s7) := randomFloat s6
    if dr < 0.6 then
      let (r, s8) := choice PARKING_REASONS s7
      ({ wants_parking := true, regular_spaces := v1, small_spaces := v2,
         large_spaces := v3, electric_spaces := v4, outdoor_spaces := v5,
         reason := some r }, s8)
    else
      ({ wants_parking := true, regular_spaces := v1, small_spaces := v2,
         large_spaces := v3, electric_spaces := v4, outdoor_spaces := v5 }, s7)
  else ({}, s1)

/-- TestDataFactory.create_realistic_household_data (lines 366-389), with
the draws in Python's argument-evaluation order. -/
def householdStep (s : RandState) : HouseholdData × RandState :=
  let (pets, s1) := randomFloat s
  let (mus, s2) := randomFloat s1
  let (smoke, s3) := randomFloat s2
  let (reloc, s4) := choice RELOCATION_REASONS s3
  let (mv, s5) := randomFloat s4
  let (mb, s6) := randomFloat s5
  let (dep, s7) := randomFloat s6
  let (inc, s8) := randomFloat s7
  let (ib, s9) := randomFloat s8
  let (bk, s10) := randomFloat s9
  let (ao, s11) := randomFloat s10
  let (pid, s12) := randomFloat s11
  let (relGate, s13) := randomFloat s12
  let (relVal, s14) :=
    if relGate < 0.4 then
      let (c, s14a) := choice COOPERATIVE_RELATIONS s13
      (some c, s14a)
    else (none, s13)
  let (obj, s15) := choice OBJECT_SOURCES s14
  let (rem, s16) := randomFloat s15
  ({ household_type := some "couple household with child"
     has_pets := some (decide (pets < 0.3))
     has_music_instruments := some (decide (mus < 0.2))
     is_smoker := some (decide (smoke < 0.15))
     relocation_reason := some reloc
     desired_move_date := if mv < 0.4 then some "01.06.2024" else none
     mailbox_label := if mb < 0.6 then some "Smith Family" else none
     security_deposit_type := some (if dep < 0.8 then "deposit" else "insurance")
     income_rent_ratio := some (decide (inc < 0.7))
     iban := if ib < 0.5 then some "CH93 0076 2011 6238 5295 7" else none
     bank_name := if bk < 0.5 then some "UBS Switzerland" else none
     account_owner := if ao < 0.5 then some "John Smith" else none
     motivation := some "Looking for a community-oriented living space"
     participation_ideas := if pid < 0.6 then some "Interested in community garden and events" else none
     relation_to_cooperative := relVal
     object_found_on := some obj
     remarks := if rem < 0.3 then some "Excited to be part of the community!" else none }, s16)

/-- Line 416: wants_car_sharing gated by CAR_SHARING_PROBABILITY. -/
def carSharingStep (fd : FormData) (s : RandState) : FormData × RandState :=
  let (d, s1) := randomFloat s
  ({ fd with wants_car_sharing := decide (d < CAR_SHARING_PROBABILITY) }, s1)

/-- Lines 418-420: the motorbike block. -/
def motorbikeStep (fd : FormData) (s : RandState) : FormData × RandState :=
  let (d, s1) := randomFloat s
  if d < MOTORBIKE_PROBABILITY then
    ({ fd with wants_motorbike_parking := true, motorbike_spaces := 1 }, s1)
  else (fd, s1)

/-- Lines 422-426: the bike block — gate, 1-3 spaces, and a 0.3 gate for
1-2 electric-bike spaces. -/
def bikeStep (fd : FormData) (s : RandState) : FormData × RandState :=
  let (d, s1) := randomFloat s
  if d < BIKE_PARKING_PROBABILITY then
    let (spaces, s2) := randint 1 3 s1
    let (d2, s3) := randomFloat s2
    if d2 < 0.3 then
      let (esp, s4) := randint 1 2 s3
      ({ fd with wants_bike_parking := true, bike_spaces := spaces,
                 electric_bike_spaces := esp }, s4)
    else
      ({ fd with wants_bike_parking := true, bike_spaces := spaces }, s3)
  else (fd, s1)

/-- Lines 428-431: the additional-room block. -/
def addRoomStep (fd : FormData) (s : RandState) : FormData × RandState :=
  let (d, s1) := randomFloat s
  if d < ADDITIONAL_ROOM_PROBABILITY then
    let (purpose, s2) := choice ROOM_PURPOSES s1
    let (area, s3) := choice ROOM_AREAS s2
    ({ fd with wants_additional_room := true,
               additional_room_purpose := some purpose,
               additional_room_area := some area }, s3)
  else (fd, s1)

/-- Lines 433-436: the storage-room block. -/
def storageStep (fd : FormData) (s : RandState) : FormData × RandState :=
  let (d, s1) := randomFloat s
  if d < STORAGE_ROOM_PROBABILITY then
    let (purpose, s2) := choice STORAGE_PURPOSES s1
    let (area, s3) := choice STORAGE_AREAS s2
    ({ fd with wants_storage_room := true,
               storage_room_purpose := some purpose,
               storage_room_area := some area }, s3)
  else (fd, s1)

/-- Lines 438-440: the workshop block. -/
def workshopStep (fd : FormData) (s : RandState) : FormData × RandState :=
  let (d, s1) := randomFloat s
  if d < WORKSHOP_PROBABILITY then
    let (purpose, s2) := choice WORKSHOP_PURPOSES s1
    ({ fd with wants_workshop := true, workshop_purpose := some purpose }, s2)
  else (fd, s1)

/-- Line 442: wants_coworking gated by COWORKING_PROBABILITY. -/
def coworkingStep (fd : FormData) (s : RandState) : FormData × RandState :=
  let (d, s1) := randomFloat s
  ({ fd with wants_coworking := decide (d < COWORKING_PROBABILITY) }, s1)

/-- Lines 444-446: the home-office block. -/
def homeOfficeStep (fd : FormData) (s : RandState) : FormData × RandState :=
  let (d, s1) := randomFloat s
  if d < HOME_OFFICE_PROBABILITY then
    let (reason, s2) := choice HOME_OFFICE_REASONS s1
    ({ fd with wants_home_office := true, home_office_reason := some reason }, s2)
  else (fd, s1)

/-- Line 448: needs_obstacle_free gated by ACCESSIBILITY_PROBABILITY. -/
def obstacleStep (fd : FormData) (s : RandState) : FormData × RandState :=
  let (d, s1) := randomFloat s
  ({ fd with needs_obstacle_free := decide (d < ACCESSIBILITY_PROBABILITY) }, s1)

/-- TestDataFactory.create_realistic_applicant (lines 391-450): parking
block, household data, then the nine requirement blocks in source order. -/
def create_realistic_applicant (s : RandState) : FormData × RandState :=
  let pr := parkingStep s
  let hh := householdStep pr.2
  let fd0 : FormData := { parking := pr.1, household := hh.1 }
  let c1 := carSharingStep fd0 hh.2
  let c2 := motorbikeStep c1.1 c1.2
  let c3 := bikeStep c2.1 c2.2
  let c4 := addRoomStep c3.1 c3.2
  let c5 := storageStep c4.1 c4.2
  let c6 := workshopStep c5.1 c5.2
  let c7 := coworkingStep c6.1 c6.2
  let c8 := homeOfficeStep c7.1 c7.2
  obstacleStep c8.1 c8.2

/-! ## Per-step lemmas for create_realistic_applicant

Each requirement block of create_realistic_applicant writes only its own
FormData fields; these lemmas record, per block, the value of the fields it
writes and that every other claimed field passes through unchanged. -/

@[simp]
theorem carSharingStep_parking (fd : FormData) (s : RandState) :
    ((carSharingStep fd s).1).parking = fd.parking := by
  rw [carSharingStep]

@[simp]
theorem carSharingStep_wants_motorbike_parking (fd : FormData) (s : RandState) :
    ((carSharingStep fd s).1).wants_motorbike_parking = fd.wants_motorbike_parking := by
  rw [carSharingStep]

@[simp]
theorem carSharingStep_motorbike_spaces (fd : FormData) (s : RandState) :
    ((carSharingStep fd s).1).motorbike_spaces = fd.motorbike_spaces := by
  rw [carSharingStep]

@[simp]
theorem carSharingStep_wants_bike_parking (fd : FormData) (s : RandState) :
    ((carSharingStep fd s).1).wants_bike_parking = fd.wants_bike_parking := by
  rw [carSharingStep]

@[simp]
theorem carSharingStep_bike_spaces (fd : FormData) (s : RandState) :
    ((carSharingStep fd s).1).bike_spaces = fd.bike_spaces := by
  rw [carSharingStep]

@[simp]
theorem carSharingStep_electric_bike_spaces (fd : FormData) (s : RandState) :
    ((carSharingStep fd s).1).electric_bike_spaces = fd.electric_bike_spaces := by
  rw [carSharingStep]

@[simp]
theorem carSharingStep_wants_additional_room (fd : FormData) (s : RandState) :
    ((carSharingStep fd s).1).wants_additional_room = fd.wants_additional_room := by
  rw [carSharingStep]

@[simp]
theorem carSharingStep_additional_room_purpose (fd : FormData) (s : RandState) :
    ((carSharingStep fd s).1).additional_room_purpose = fd.additional_room_purpose := by
  rw [carSharingStep]

@[simp]
theorem carSharingStep_additional_room_area (fd : FormData) (s : RandState) :
    ((carSharingStep fd s).1).additional_room_area = fd.additional_room_area := by
  rw [carSharingStep]

@[simp]
theorem carSharingStep_wants_storage_room (fd : FormData) (s : RandState) :
    ((carSharingStep fd s).1).wants_storage_room = fd.wants_storage_room := by
  rw [carSharingStep]

@[simp]
theorem carSharingStep_storage_room_purpose (fd : FormData) (s : RandState) :
    ((carSharingStep fd s).1).storage_room_purpose = fd.storage_room_purpose := by
  rw [carSharingStep]

@[simp]
theorem carSharingStep_storage_room_area (fd : FormData) (s : RandState) :
    ((carSharingStep fd s).1).storage_room_area = fd.storage_room_area := by
  rw [carSharingStep]

@[simp]
theorem carSharingStep_wants_workshop (fd : FormData) (s : RandState) :
    ((carSharingStep fd s).1).wants_workshop = fd.wants_workshop := by
  rw [carSharingStep]

@[simp]
theorem carSharingStep_workshop_purpose (fd : FormData) (s : RandState) :
    ((carSharingStep fd s).1).workshop_purpose = fd.workshop_purpose := by
  rw [carSharingStep]

@[simp]
theorem carSharingStep_wants_coworking (fd : FormData) (s : RandState) :
    ((carSharingStep fd s).1).wants_coworking = fd.wants_coworking := by
  rw [carSharingStep]

@[simp]
theorem carSharingStep_wants_home_office (fd : FormData) (s : RandState) :
    ((carSharingStep fd s).1).wants_home_office = fd.wants_home_office := by
  rw [carSharingStep]

@[simp]
theorem carSharingStep_home_office_reason (fd : FormData) (s : RandState) :
    ((carSharingStep fd s).1).home_office_reason = fd.home_office_reason := by
  rw [carSharingStep]

@[simp]
theorem carSharingStep_needs_obstacle_free (fd : FormData) (s : RandState) :
    ((carSharingStep fd s).1).needs_obstacle_free = fd.needs_obstacle_free := by
  rw [carSharingStep]

@[simp]
theorem motorbikeStep_parking (fd : FormData) (s : RandState) :
    ((motorbikeStep fd s).1).parking = fd.parking := by
  rw [motorbikeStep]
  all_goals by_cases h : s.floats s.fIdx < MOTORBIKE_PROBABILITY <;>
    simp [randomFloat, randint, choice, h, apply_ite]

@[simp]
theorem motorbikeStep_wants_car_sharing (fd : FormData) (s : RandState) :
    ((motorbikeStep fd s).1).wants_car_sharing = fd.wants_car_sharing := by
  rw [motorbikeStep]
  all_goals by_cases h : s.floats s.fIdx < MOTORBIKE_PROBABILITY <;>
    simp [randomFloat, randint, choice, h, apply_ite]

@[simp]
theorem motorbikeStep_wants_bike_parking (fd : FormData) (s : RandState) :
    ((motorbikeStep fd s).1).wants_bike_parking = fd.wants_bike_parking := by
  rw [motorbikeStep]
  all_goals by_cases h : s.floats s.fIdx < MOTORBIKE_PROBABILITY <;>
    simp [randomFloat, randint, choice, h, apply_ite]

@[simp]
theorem motorbikeStep_bike_spaces (fd : FormData) (s : RandState) :
    ((motorbikeStep fd s).1).bike_spaces = fd.bike_spaces := by
  rw [motorbikeStep]
  all_goals by_cases h : s.floats s.fIdx < MOTORBIKE_PROBABILITY <;>
    simp [randomFloat, randint, choice, h, apply_ite]

@[simp]
theorem motorbikeStep_electric_bike_spaces (fd : FormData) (s : RandState) :
    ((motorbikeStep fd s).1).electric_bike_spaces = fd.electric_bike_spaces := by
  rw [motorbikeStep]
  all_goals by_cases h : s.floats s.fIdx < MOTORBIKE_PROBABILITY <;>
    simp [randomFloat, randint, choice, h, apply_ite]

@[simp]
theorem motorbikeStep_wants_additional_room (fd : FormData) (s : RandState) :
    ((motorbikeStep fd s).1).wants_additional_room = fd.wants_additional_room := by
  rw [motorbikeStep]
  all_goals by_cases h : s.floats s.fIdx < MOTORBIKE_PROBABILITY <;>
    simp [randomFloat, randint, choice, h, apply_ite]

@[simp]
theorem motorbikeStep_additional_room_purpose (fd : FormData) (s : RandState) :
    ((motorbikeStep fd s).1).additional_room_purpose = fd.additional_room_purpose := by
  rw [motorbikeStep]
  all_goals by_cases h : s.floats s.fIdx < MOTORBIKE_PROBABILITY <;>
    simp [randomFloat, randint, choice, h, apply_ite]

@[simp]
theorem motorbikeStep_additional_room_area (fd : FormData) (s : RandState) :
    ((motorbikeStep fd s).1).additional_room_area = fd.additional_room_area := by
  rw [motorbikeStep]
  all_goals by_cases h : s.floats s.fIdx < MOTORBIKE_PROBABILITY <;>
    simp [randomFloat, randint, choice, h, apply_ite]

@[simp]
theorem motorbikeStep_wants_storage_room (fd : FormData) (s : RandState) :
    ((motorbikeStep fd s).1).wants_storage_room = fd.wants_storage_room := by
  rw [motorbikeStep]
  all_goals by_cases h : s.floats s.fIdx < MOTORBIKE_PROBABILITY <;>
    simp [randomFloat, randint, choice, h, apply_ite]

@[simp]
theorem motorbikeStep_storage_room_purpose (fd : FormData) (s : RandState) :
    ((motorbikeStep fd s).1).storage_room_purpose = fd.storage_room_purpose := by
  rw [motorbikeStep]
  all_goals by_cases h : s.floats s.fIdx < MOTORBIKE_PROBABILITY <;>
    simp [randomFloat, randint, choice, h, apply_ite]

@[simp]
theorem motorbikeStep_storage_room_area (fd : FormData) (s : RandState) :
    ((motorbikeStep fd s).1).storage_room_area = fd.storage_room_area := by
  rw [motorbikeStep]
  all_goals by_cases h : s.floats s.fIdx < MOTORBIKE_PROBABILITY <;>
    simp [randomFloat, randint, choice, h, apply_ite]

@[simp]
theorem motorbikeStep_wants_workshop (fd : FormData) (s : RandState) :
    ((motorbikeStep fd s).1).wants_workshop = fd.wants_workshop := by
  rw [motorbikeStep]
  all_goals by_cases h : s.floats s.fIdx < MOTORBIKE_PROBABILITY <;>
    simp [randomFloat, randint, choice, h, apply_ite]

@[simp]
theorem motorbikeStep_workshop_purpose (fd : FormData) (s : RandState) :
    ((motorbikeStep fd s).1).workshop_purpose = fd.workshop_purpose := by
  rw [motorbikeStep]
  all_goals by_cases h : s.floats s.fIdx < MOTORBIKE_PROBABILITY <;>
    simp [randomFloat, randint, choice, h, apply_ite]

@[simp]
theorem motorbikeStep_wants_coworking (fd : FormData) (s : RandState) :
    ((motorbikeStep fd s).1).wants_coworking = fd.wants_coworking := by
  rw [motorbikeStep]
  all_goals by_cases h : s.floats s.fIdx < MOTORBIKE_PROBABILITY <;>
    simp [randomFloat, randint, choice, h, apply_ite]

@[simp]
theorem motorbikeStep_wants_home_office (fd : FormData) (s : RandState) :
    ((motorbikeStep fd s).1).wants_home_office = fd.wants_home_office := by
  rw [motorbikeStep]
  all_goals by_cases h : s.floats s.fIdx < MOTORBIKE_PROBABILITY <;>
    simp [randomFloat, randint, choice, h, apply_ite]

@[simp]
theorem motorbikeStep_home_office_reason (fd : FormData) (s : RandState) :
    ((motorbikeStep fd s).1).home_office_reason = fd.home_office_reason := by
  rw [motorbikeStep]
  all_goals by_cases h : s.floats s.fIdx < MOTORBIKE_PROBABILITY <;>
    simp [randomFloat, randint, choice, h, apply_ite]

@[simp]
theorem motorbikeStep_needs_obstacle_free (fd : FormData) (s : RandState) :
    ((motorbikeStep fd s).1).needs_obstacle_free = fd.needs_obstacle_free := by
  rw [motorbikeStep]
  all_goals by_cases h : s.floats s.fIdx < MOTORBIKE_PROBABILITY <;>
    simp [randomFloat, randint, choice, h, apply_ite]

@[simp]
theorem bikeStep_parking (fd : FormData) (s : RandState) :
    ((bikeStep fd s).1).parking = fd.parking := by
  rw [bikeStep]
  all_goals by_cases h : s.floats s.fIdx < BIKE_PARKING_PROBABILITY <;>
    simp [randomFloat, randint, choice, h, apply_ite]

@[simp]
theorem bikeStep_wants_car_sharing (fd : FormData) (s : RandState) :
    ((bikeStep fd s).1).wants_car_sharing = fd.wants_car_sharing := by
  rw [bikeStep]
  all_goals by_cases h : s.floats s.fIdx < BIKE_PARKING_PROBABILITY <;>
    simp [randomFloat, randint, choice, h, apply_ite]

@[simp]
theorem bikeStep_wants_motorbike_parking (fd : FormData) (s : RandState) :
    ((bikeStep fd s).1).wants_motorbike_parking = fd.wants_motorbike_parking := by
  rw [bikeStep]
  all_goals by_cases h : s.floats s.fIdx < BIKE_PARKING_PROBABILITY <;>
    simp [randomFloat, randint, choice, h, apply_ite]

@[simp]
theorem bikeStep_motorbike_spaces (fd : FormData) (s : RandState) :
    ((bikeStep fd s).1).motorbike_spaces = fd.motorbike_spaces := by
  rw [bikeStep]
  all_goals by_cases h : s.floats s.fIdx < BIKE_PARKING_PROBABILITY <;>
    simp [randomFloat, randint, choice, h, apply_ite]

@[simp]
theorem bikeStep_wants_additional_room (fd : FormData) (s : RandState) :
    ((bikeStep fd s).1).wants_additional_room = fd.wants_additional_room := by
  rw [bikeStep]
  all_goals by_cases h : s.floats s.fIdx < BIKE_PARKING_PROBABILITY <;>
    simp [randomFloat, randint, choice, h, apply_ite]

@[simp]
theorem bikeStep_additional_room_purpose (fd : FormData) (s : RandState) :
    ((bikeStep fd s).1).additional_room_purpose = fd.additional_room_purpose := by
  rw [bikeStep]
  all_goals by_cases h : s.floats s.fIdx < BIKE_PARKING_PROBABILITY <;>
    simp [randomFloat, randint, choice, h, apply_ite]

@[simp]
theorem bikeStep_additional_room_area (fd : FormData) (s : RandState) :
    ((bikeStep fd s).1).additional_room_area = fd.additional_room_area := by
  rw [bikeStep]
  all_goals by_cases h : s.floats s.fIdx < BIKE_PARKING_PROBABILITY <;>
    simp [randomFloat, randint, choice, h, apply_ite]

@[simp]
theorem bikeStep_wants_storage_room (fd : FormData) (s : RandState) :
    ((bikeStep fd s).1).wants_storage_room = fd.wants_storage_room := by
  rw [bikeStep]
  all_goals by_cases h : s.floats s.fIdx < BIKE_PARKING_PROBABILITY <;>
    simp [randomFloat, randint, choice, h, apply_ite]

@[simp]
theorem bikeStep_storage_room_purpose (fd : FormData) (s : RandState) :
    ((bikeStep fd s).1).storage_room_purpose = fd.storage_room_purpose := by
  rw [bikeStep]
  all_goals by_cases h : s.floats s.fIdx < BIKE_PARKING_PROBABILITY <;>
    simp [randomFloat, randint, choice, h, apply_ite]

@[simp]
theorem bikeStep_storage_room_area (fd : FormData) (s : RandState) :
    ((bikeStep fd s).1).storage_room_area = fd.storage_room_area := by
  rw [bikeStep]
  all_goals by_cases h : s.floats s.fIdx < BIKE_PARKING_PROBABILITY <;>
    simp [randomFloat, randint, choice, h, apply_ite]

@[simp]
theorem bikeStep_wants_workshop (fd : FormData) (s : RandState) :
    ((bikeStep fd s).1).wants_workshop = fd.wants_workshop := by
  rw [bikeStep]
  all_goals by_cases h : s.floats s.fIdx < BIKE_PARKING_PROBABILITY <;>
    simp [randomFloat, randint, choice, h, apply_ite]

@[simp]
theorem bikeStep_workshop_purpose (fd : FormData) (s : RandState) :
    ((bikeStep fd s).1).workshop_purpose = fd.workshop_purpose := by
  rw [bikeStep]
  all_goals by_cases h : s.floats s.fIdx < BIKE_PARKING_PROBABILITY <;>
    simp [randomFloat, randint, choice, h, apply_ite]

@[simp]
theorem bikeStep_wants_coworking (fd : FormData) (s : RandState) :
    ((bikeStep fd s).1).wants_coworking = fd.wants_coworking := by
  rw [bikeStep]
  all_goals by_cases h : s.floats s.fIdx < BIKE_PARKING_PROBABILITY <;>
    simp [randomFloat, randint, choice, h, apply_ite]

@[simp]
theorem bikeStep_wants_home_office (fd : FormData) (s : RandState) :
    ((bikeStep fd s).1).wants_home_office = fd.wants_home_office := by
  rw [bikeStep]
  all_goals by_cases h : s.floats s.fIdx < BIKE_PARKING_PROBABILITY <;>
    simp [randomFloat, randint, choice, h, apply_ite]

@[simp]
theorem bikeStep_home_office_reason (fd : FormData) (s : RandState) :
    ((bikeStep fd s).1).home_office_reason = fd.home_office_reason := by
  rw [bikeStep]
  all_goals by_cases h : s.floats s.fIdx < BIKE_PARKING_PROBABILITY <;>
    simp [randomFloat, randint, choice, h, apply_ite]

@[simp]
theorem bikeStep_needs_obstacle_free (fd : FormData) (s : RandState) :
    ((bikeStep fd s).1).needs_obstacle_free = fd.needs_obstacle_free := by
  rw [bikeStep]
  all_goals by_cases h : s.floats s.fIdx < BIKE_PARKING_PROBABILITY <;>
    simp [randomFloat, randint, choice, h, apply_ite]

@[simp]
theorem addRoomStep_parking (fd : FormData) (s : RandState) :
    ((addRoomStep fd s).1).parking = fd.parking := by
  rw [addRoomStep]
  all_goals by_cases h : s.floats s.fIdx < ADDITIONAL_ROOM_PROBABILITY <;>
    simp [randomFloat, randint, choice, h, apply_ite]

@[simp]
theorem addRoomStep_wants_car_sharing (fd : FormData) (s : RandState) :
    ((addRoomStep fd s).1).wants_car_sharing = fd.wants_car_sharing := by
  rw [addRoomStep]
  all_goals by_cases h : s.floats s.fIdx < ADDITIONAL_ROOM_PROBABILITY <;>
    simp [randomFloat, randint, choice, h, apply_ite]

@[simp]
theorem addRoomStep_wants_motorbike_parking (fd : FormData) (s : RandState) :
    ((addRoomStep fd s).1).wants_motorbike_parking = fd.wants_motorbike_parking := by
  rw [addRoomStep]
  all_goals by_cases h : s.floats s.fIdx < ADDITIONAL_ROOM_PROBABILITY <;>
    simp [randomFloat, randint, choice, h, apply_ite]

@[simp]
theorem addRoomStep_motorbike_spaces (fd : FormData) (s : RandState) :
    ((addRoomStep fd s).1).motorbike_spaces = fd.motorbike_spaces := by
  rw [addRoomStep]
  all_goals by_cases h : s.floats s.fIdx < ADDITIONAL_ROOM_PROBABILITY <;>
    simp [randomFloat, randint, choice, h, apply_ite]

@[simp]
theorem addRoomStep_wants_bike_parking (fd : FormData) (s : RandState) :
    ((addRoomStep fd s).1).wants_bike_parking = fd.wants_bike_parking := by
  rw [addRoomStep]
  all_goals by_cases h : s.floats s.fIdx < ADDITIONAL_ROOM_PROBABILITY <;>
    simp [randomFloat, randint, choice, h, apply_ite]

@[simp]
theorem addRoomStep_bike_spaces (fd : FormData) (s : RandState) :
    ((addRoomStep fd s).1).bike_spaces = fd.bike_spaces := by
  rw [addRoomStep]
  all_goals by_cases h : s.floats s.fIdx < ADDITIONAL_ROOM_PROBABILITY <;>
    simp [randomFloat, randint, choice, h, apply_ite]

@[simp]
theorem addRoomStep_electric_bike_spaces (fd : FormData) (s : RandState) :
    ((addRoomStep fd s).1).electric_bike_spaces = fd.electric_bike_spaces := by
  rw [addRoomStep]
  all_goals by_cases h : s.floats s.fIdx < ADDITIONAL_ROOM_PROBABILITY <;>
    simp [randomFloat, randint, choice, h, apply_ite]

@[simp]
theorem addRoomStep_wants_storage_room (fd : FormData) (s : RandState) :
    ((addRoomStep fd s).1).wants_storage_room = fd.wants_storage_room := by
  rw [addRoomStep]
  all_goals by_cases h : s.floats s.fIdx < ADDITIONAL_ROOM_PROBABILITY <;>
    simp [randomFloat, randint, choice, h, apply_ite]

@[simp]
theorem addRoomStep_storage_room_purpose (fd : FormData) (s : RandState) :
    ((addRoomStep fd s).1).storage_room_purpose = fd.storage_room_purpose := by
  rw [addRoomStep]
  all_goals by_cases h : s.floats s.fIdx < ADDITIONAL_ROOM_PROBABILITY <;>
    simp [randomFloat, randint, choice, h, apply_ite]

@[simp]
theorem addRoomStep_storage_room_area (fd : FormData) (s : RandState) :
    ((addRoomStep fd s).1).storage_room_area = fd.storage_room_area := by
  rw [addRoomStep]
  all_goals by_cases h : s.floats s.fIdx < ADDITIONAL_ROOM_PROBABILITY <;>
    simp [randomFloat, randint, choice, h, apply_ite]

@[simp]
theorem addRoomStep_wants_workshop (fd : FormData) (s : RandState) :
    ((addRoomStep fd s).1).wants_workshop = fd.wants_workshop := by
  rw [addRoomStep]
  all_goals by_cases h : s.floats s.fIdx < ADDITIONAL_ROOM_PROBABILITY <;>
    simp [randomFloat, randint, choice, h, apply_ite]

@[simp]
theorem addRoomStep_workshop_purpose (fd : FormData) (s : RandState) :
    ((addRoomStep fd s).1).workshop_purpose = fd.workshop_purpose := by
  rw [addRoomStep]
  all_goals by_cases h : s.floats s.fIdx < ADDITIONAL_ROOM_PROBABILITY <;>
    simp [randomFloat, randint, choice, h, apply_ite]

@[simp]
theorem addRoomStep_wants_coworking (fd : FormData) (s : RandState) :
    ((addRoomStep fd s).1).wants_coworking = fd.wants_coworking := by
  rw [addRoomStep]
  all_goals by_cases h : s.floats s.fIdx < ADDITIONAL_ROOM_PROBABILITY <;>
    simp [randomFloat, randint, choice, h, apply_ite]

@[simp]
theorem addRoomStep_wants_home_office (fd : FormData) (s : RandState) :
    ((addRoomStep fd s).1).wants_home_office = fd.wants_home_office := by
  rw [addRoomStep]
  all_goals by_cases h : s.floats s.fIdx < ADDITIONAL_ROOM_PROBABILITY <;>
    simp [randomFloat, randint, choice, h, apply_ite]

@[simp]
theorem addRoomStep_home_office_reason (fd : FormData) (s : RandState) :
    ((addRoomStep fd s).1).home_office_reason = fd.home_office_reason := by
  rw [addRoomStep]
  all_goals by_cases h : s.floats s.fIdx < ADDITIONAL_ROOM_PROBABILITY <;>
    simp [randomFloat, randint, choice, h, apply_ite]

@[simp]
theorem addRoomStep_needs_obstacle_free (fd : FormData) (s : RandState) :
    ((addRoomStep fd s).1).needs_obstacle_free = fd.needs_obstacle_free := by
  rw [addRoomStep]
  all_goals by_cases h : s.floats s.fIdx < ADDITIONAL_ROOM_PROBABILITY <;>
    simp [randomFloat, randint, choice, h, apply_ite]

@[simp]
theorem storageStep_parking (fd : FormData) (s : RandState) :
    ((storageStep fd s).1).parking = fd.parking := by
  rw [storageStep]
  all_goals by_cases h : s.floats s.fIdx < STORAGE_ROOM_PROBABILITY <;>
    simp [randomFloat, randint, choice, h, apply_ite]

@[simp]
theorem storageStep_wants_car_sharing (fd : FormData) (s : RandState) :
    ((storageStep fd s).1).wants_car_sharing = fd.wants_car_sharing := by
  rw [storageStep]
  all_goals by_cases h : s.floats s.fIdx < STORAGE_ROOM_PROBABILITY <;>
    simp [randomFloat, randint, choice, h, apply_ite]

@[simp]
theorem storageStep_wants_motorbike_parking (fd : FormData) (s : RandState) :
    ((storageStep fd s).1).wants_motorbike_parking = fd.wants_motorbike_parking := by
  rw [storageStep]
  all_goals by_cases h : s.floats s.fIdx < STORAGE_ROOM_PROBABILITY <;>
    simp [randomFloat, randint, choice, h, apply_ite]

@[simp]
theorem storageStep_motorbike_spaces (fd : FormData) (s : RandState) :
    ((storageStep fd s).1).motorbike_spaces = fd.motorbike_spaces := by
  rw [storageStep]
  all_goals by_cases h : s.floats s.fIdx < STORAGE_ROOM_PROBABILITY <;>
    simp [randomFloat, randint, choice, h, apply_ite]

@[simp]
theorem storageStep_wants_bike_parking (fd : FormData) (s : RandState) :
    ((storageStep fd s).1).wants_bike_parking = fd.wants_bike_parking := by
  rw [storageStep]
  all_goals by_cases h : s.floats s.fIdx < STORAGE_ROOM_PROBABILITY <;>
    simp [randomFloat, randint, choice, h, apply_ite]

@[simp]
theorem storageStep_bike_spaces (fd : FormData) (s : RandState) :
    ((storageStep fd s).1).bike_spaces = fd.bike_spaces := by
  rw [storageStep]
  all_goals by_cases h : s.floats s.fIdx < STORAGE_ROOM_PROBABILITY <;>
    simp [randomFloat, randint, choice, h, apply_ite]

@[simp]
theorem storageStep_electric_bike_spaces (fd : FormData) (s : RandState) :
    ((storageStep fd s).1).electric_bike_spaces = fd.electric_bike_spaces := by
  rw [storageStep]
  all_goals by_cases h : s.floats s.fIdx < STORAGE_ROOM_PROBABILITY <;>
    simp [randomFloat, randint, choice, h, apply_ite]

@[simp]
theorem storageStep_wants_additional_room (fd : FormData) (s : RandState) :
    ((storageStep fd s).1).wants_additional_room = fd.wants_additional_room := by
  rw [storageStep]
  all_goals by_cases h : s.floats s.fIdx < STORAGE_ROOM_PROBABILITY <;>
    simp [randomFloat, randint, choice, h, apply_ite]

@[simp]
theorem storageStep_additional_room_purpose (fd : FormData) (s : RandState) :
    ((storageStep fd s).1).additional_room_purpose = fd.additional_room_purpose := by
  rw [storageStep]
  all_goals by_cases h : s.floats s.fIdx < STORAGE_ROOM_PROBABILITY <;>
    simp [randomFloat, randint, choice, h, apply_ite]

@[simp]
theorem storageStep_additional_room_area (fd : FormData) (s : RandState) :
    ((storageStep fd s).1).additional_room_area = fd.additional_room_area := by
  rw [storageStep]
  all_goals by_cases h : s.floats s.fIdx < STORAGE_ROOM_PROBABILITY <;>
    simp [randomFloat, randint, choice, h, apply_ite]

@[simp]
theorem storageStep_wants_workshop (fd : FormData) (s : RandState) :
    ((storageStep fd s).1).wants_workshop = fd.wants_workshop := by
  rw [storageStep]
  all_goals by_cases h : s.floats s.fIdx < STORAGE_ROOM_PROBABILITY <;>
    simp [randomFloat, randint, choice, h, apply_ite]

@[simp]
theorem storageStep_workshop_purpose (fd : FormData) (s : RandState) :
    ((storageStep fd s).1).workshop_purpose = fd.workshop_purpose := by
  rw [storageStep]
  all_goals by_cases h : s.floats s.fIdx < STORAGE_ROOM_PROBABILITY <;>
    simp [randomFloat, randint, choice, h, apply_ite]

@[simp]
theorem storageStep_wants_coworking (fd : FormData) (s : RandState) :
    ((storageStep fd s).1).wants_coworking = fd.wants_coworking := by
  rw [storageStep]
  all_goals by_cases h : s.floats s.fIdx < STORAGE_ROOM_PROBABILITY <;>
    simp [randomFloat, randint, choice, h, apply_ite]

@[simp]
theorem storageStep_wants_home_office (fd : FormData) (s : RandState) :
    ((storageStep fd s).1).wants_home_office = fd.wants_home_office := by
  rw [storageStep]
  all_goals by_cases h : s.floats s.fIdx < STORAGE_ROOM_PROBABILITY <;>
    simp [randomFloat, randint, choice, h, apply_ite]

@[simp]
theorem storageStep_home_office_reason (fd : FormData) (s : RandState) :
    ((storageStep fd s).1).home_office_reason = fd.home_office_reason := by
  rw [storageStep]
  all_goals by_cases h : s.floats s.fIdx < STORAGE_ROOM_PROBABILITY <;>
    simp [randomFloat, randint, choice, h, apply_ite]

@[simp]
theorem storageStep_needs_obstacle_free (fd : FormData) (s : RandState) :
    ((storageStep fd s).1).needs_obstacle_free = fd.needs_obstacle_free := by
  rw [storageStep]
  all_goals by_cases h : s.floats s.fIdx < STORAGE_ROOM_PROBABILITY <;>
    simp [randomFloat, randint, choice, h, apply_ite]

@[simp]
theorem workshopStep_parking (fd : FormData) (s : RandState) :
    ((workshopStep fd s).1).parking = fd.parking := by
  rw [workshopStep]
  all_goals by_cases h : s.floats s.fIdx < WORKSHOP_PROBABILITY <;>
    simp [randomFloat, randint, choice, h, apply_ite]

@[simp]
theorem workshopStep_wants_car_sharing (fd : FormData) (s : RandState) :
    ((workshopStep fd s).1).wants_car_sharing = fd.wants_car_sharing := by
  rw [workshopStep]
  all_goals by_cases h : s.floats s.fIdx < WORKSHOP_PROBABILITY <;>
    simp [randomFloat, randint, choice, h, apply_ite]

@[simp]
theorem workshopStep_wants_motorbike_parking (fd : FormData) (s : RandState) :
    ((workshopStep fd s).1).wants_motorbike_parking = fd.wants_motorbike_parking := by
  rw [workshopStep]
  all_goals by_cases h : s.floats s.fIdx < WORKSHOP_PROBABILITY <;>
    simp [randomFloat, randint, choice, h, apply_ite]

@[simp]
theorem workshopStep_motorbike_spaces (fd : FormData) (s : RandState) :
    ((workshopStep fd s).1).motorbike_spaces = fd.motorbike_spaces := by
  rw [workshopStep]
  all_goals by_cases h : s.floats s.fIdx < WORKSHOP_PROBABILITY <;>
    simp [randomFloat, randint, choice, h, apply_ite]

@[simp]
theorem workshopStep_wants_bike_parking (fd : FormData) (s : RandState) :
    ((workshopStep fd s).1).wants_bike_parking = fd.wants_bike_parking := by
  rw [workshopStep]
  all_goals by_cases h : s.floats s.fIdx < WORKSHOP_PROBABILITY <;>
    simp [randomFloat, randint, choice, h, apply_ite]

@[simp]
theorem workshopStep_bike_spaces (fd : FormData) (s : RandState) :
    ((workshopStep fd s).1).bike_spaces = fd.bike_spaces := by
  rw [workshopStep]
  all_goals by_cases h : s.floats s.fIdx < WORKSHOP_PROBABILITY <;>
    simp [randomFloat, randint, choice, h, apply_ite]

@[simp]
theorem workshopStep_electric_bike_spaces (fd : FormData) (s : RandState) :
    ((workshopStep fd s).1).electric_bike_spaces = fd.electric_bike_spaces := by
  rw [workshopStep]
  all_goals by_cases h : s.floats s.fIdx < WORKSHOP_PROBABILITY <;>
    simp [randomFloat, randint, choice, h, apply_ite]

@[simp]
theorem workshopStep_wants_additional_room (fd : FormData) (s : RandState) :
    ((workshopStep fd s).1).wants_additional_room = fd.wants_additional_room := by
  rw [workshopStep]
  all_goals by_cases h : s.floats s.fIdx < WORKSHOP_PROBABILITY <;>
    simp [randomFloat, randint, choice, h, apply_ite]

@[simp]
theorem workshopStep_additional_room_purpose (fd : FormData) (s : RandState) :
    ((workshopStep fd s).1).additional_room_purpose = fd.additional_room_purpose := by
  rw [workshopStep]
  all_goals by_cases h : s.floats s.fIdx < WORKSHOP_PROBABILITY <;>
    simp [randomFloat, randint, choice, h, apply_ite]

@[simp]
theorem workshopStep_additional_room_area (fd : FormData) (s : RandState) :
    ((workshopStep fd s).1).additional_room_area = fd.additional_room_area := by
  rw [workshopStep]
  all_goals by_cases h : s.floats s.fIdx < WORKSHOP_PROBABILITY <;>
    simp [randomFloat, randint, choice, h, apply_ite]

@[simp]
theorem workshopStep_wants_storage_room (fd : FormData) (s : RandState) :
    ((workshopStep fd s).1).wants_storage_room = fd.wants_storage_room := by
  rw [workshopStep]
  all_goals by_cases h : s.floats s.fIdx < WORKSHOP_PROBABILITY <;>
    simp [randomFloat, randint, choice, h, apply_ite]

@[simp]
theorem workshopStep_storage_room_purpose (fd : FormData) (s : RandState) :
    ((workshopStep fd s).1).storage_room_purpose = fd.storage_room_purpose := by
  rw [workshopStep]
  all_goals by_cases h : s.floats s.fIdx < WORKSHOP_PROBABILITY <;>
    simp [randomFloat, randint, choice, h, apply_ite]

@[simp]
theorem workshopStep_storage_room_area (fd : FormData) (s : RandState) :
    ((workshopStep fd s).1).storage_room_area = fd.storage_room_area := by
  rw [workshopStep]
  all_goals by_cases h : s.floats s.fIdx < WORKSHOP_PROBABILITY <;>
    simp [randomFloat, randint, choice, h, apply_ite]

@[simp]
theorem workshopStep_wants_coworking (fd : FormData) (s : RandState) :
    ((workshopStep fd s).1).wants_coworking = fd.wants_coworking := by
  rw [workshopStep]
  all_goals by_cases h : s.floats s.fIdx < WORKSHOP_PROBABILITY <;>
    simp [randomFloat, randint, choice, h, apply_ite]

@[simp]
theorem workshopStep_wants_home_office (fd : FormData) (s : RandState) :
    ((workshopStep fd s).1).wants_home_office = fd.wants_home_office := by
  rw [workshopStep]
  all_goals by_cases h : s.floats s.fIdx < WORKSHOP_PROBABILITY <;>
    simp [randomFloat, randint, choice, h, apply_ite]

@[simp]
theorem workshopStep_home_office_reason (fd : FormData) (s : RandState) :
    ((workshopStep fd s).1).home_office_reason = fd.home_office_reason := by
  rw [workshopStep]
  all_goals by_cases h : s.floats s.fIdx < WORKSHOP_PROBABILITY <;>
    simp [randomFloat, randint, choice, h, apply_ite]

@[simp]
theorem workshopStep_needs_obstacle_free (fd : FormData) (s : RandState) :
    ((workshopStep fd s).1).needs_obstacle_free = fd.needs_obstacle_free := by
  rw [workshopStep]
  all_goals by_cases h : s.floats s.fIdx < WORKSHOP_PROBABILITY <;>
    simp [randomFloat, randint, choice, h, apply_ite]

@[simp]
theorem coworkingStep_parking (fd : FormData) (s : RandState) :
    ((coworkingStep fd s).1).parking = fd.parking := by
  rw [coworkingStep]

@[simp]
theorem coworkingStep_wants_car_sharing (fd : FormData) (s : RandState) :
    ((coworkingStep fd s).1).wants_car_sharing = fd.wants_car_sharing := by
  rw [coworkingStep]

@[simp]
theorem coworkingStep_wants_motorbike_parking (fd : FormData) (s : RandState) :
    ((coworkingStep fd s).1).wants_motorbike_parking = fd.wants_motorbike_parking := by
  rw [coworkingStep]

@[simp]
theorem coworkingStep_motorbike_spaces (fd : FormData) (s : RandState) :
    ((coworkingStep fd s).1).motorbike_spaces = fd.motorbike_spaces := by
  rw [coworkingStep]

@[simp]
theorem coworkingStep_wants_bike_parking (fd : FormData) (s : RandState) :
    ((coworkingStep fd s).1).wants_bike_parking = fd.wants_bike_parking := by
  rw [coworkingStep]

@[simp]
theorem coworkingStep_bike_spaces (fd : FormData) (s : RandState) :
    ((coworkingStep fd s).1).bike_spaces = fd.bike_spaces := by
  rw [coworkingStep]

@[simp]
theorem coworkingStep_electric_bike_spaces (fd : FormData) (s : RandState) :
    ((coworkingStep fd s).1).electric_bike_spaces = fd.electric_bike_spaces := by
  rw [coworkingStep]

@[simp]
theorem coworkingStep_wants_additional_room (fd : FormData) (s : RandState) :
    ((coworkingStep fd s).1).wants_additional_room = fd.wants_additional_room := by
  rw [coworkingStep]

@[simp]
theorem coworkingStep_additional_room_purpose (fd : FormData) (s : RandState) :
    ((coworkingStep fd s).1).additional_room_purpose = fd.additional_room_purpose := by
  rw [coworkingStep]

@[simp]
theorem coworkingStep_additional_room_area (fd : FormData) (s : RandState) :
    ((coworkingStep fd s).1).additional_room_area = fd.additional_room_area := by
  rw [coworkingStep]

@[simp]
theorem coworkingStep_wants_storage_room (fd : FormData) (s : RandState) :
    ((coworkingStep fd s).1).wants_storage_room = fd.wants_storage_room := by
  rw [coworkingStep]

@[simp]
theorem coworkingStep_storage_room_purpose (fd : FormData) (s : RandState) :
    ((coworkingStep fd s).1).storage_room_purpose = fd.storage_room_purpose := by
  rw [coworkingStep]

@[simp]
theorem coworkingStep_storage_room_area (fd : FormData) (s : RandState) :
    ((coworkingStep fd s).1).storage_room_area = fd.storage_room_area := by
  rw [coworkingStep]

@[simp]
theorem coworkingStep_wants_workshop (fd : FormData) (s : RandState) :
    ((coworkingStep fd s).1).wants_workshop = fd.wants_workshop := by
  rw [coworkingStep]

@[simp]
theorem coworkingStep_workshop_purpose (fd : FormData) (s : RandState) :
    ((coworkingStep fd s).1).workshop_purpose = fd.workshop_purpose := by
  rw [coworkingStep]

@[simp]
theorem coworkingStep_wants_home_office (fd : FormData) (s : RandState) :
    ((coworkingStep fd s).1).wants_home_office = fd.wants_home_office := by
  rw [coworkingStep]

@[simp]
theorem coworkingStep_home_office_reason (fd : FormData) (s : RandState) :
    ((coworkingStep fd s).1).home_office_reason = fd.home_office_reason := by
  rw [coworkingStep]

@[simp]
theorem coworkingStep_needs_obstacle_free (fd : FormData) (s : RandState) :
    ((coworkingStep fd s).1).needs_obstacle_free = fd.needs_obstacle_free := by
  rw [coworkingStep]

@[simp]
theorem homeOfficeStep_parking (fd : FormData) (s : RandState) :
    ((homeOfficeStep fd s).1).parking = fd.parking := by
  rw [homeOfficeStep]
  all_goals by_cases h : s.floats s.fIdx < HOME_OFFICE_PROBABILITY <;>
    simp [randomFloat, randint, choice, h, apply_ite]

@[simp]
theorem homeOfficeStep_wants_car_sharing (fd : FormData) (s : RandState) :
    ((homeOfficeStep fd s).1).wants_car_sharing = fd.wants_car_sharing := by
  rw [homeOfficeStep]
  all_goals by_cases h : s.floats s.fIdx < HOME_OFFICE_PROBABILITY <;>
    simp [randomFloat, randint, choice, h, apply_ite]

@[simp]
theorem homeOfficeStep_wants_motorbike_parking (fd : FormData) (s : RandState) :
    ((homeOfficeStep fd s).1).wants_motorbike_parking = fd.wants_motorbike_parking := by
  rw [homeOfficeStep]
  all_goals by_cases h : s.floats s.fIdx < HOME_OFFICE_PROBABILITY <;>
    simp [randomFloat, randint, choice, h, apply_ite]

@[simp]
theorem homeOfficeStep_motorbike_spaces (fd : FormData) (s : RandState) :
    ((homeOfficeStep fd s).1).motorbike_spaces = fd.motorbike_spaces := by
  rw [homeOfficeStep]
  all_goals by_cases h : s.floats s.fIdx < HOME_OFFICE_PROBABILITY <;>
    simp [randomFloat, randint, choice, h, apply_ite]

@[simp]
theorem homeOfficeStep_wants_bike_parking (fd : FormData) (s : RandState) :
    ((homeOfficeStep fd s).1).wants_bike_parking = fd.wants_bike_parking := by
  rw [homeOfficeStep]
  all_goals by_cases h : s.floats s.fIdx < HOME_OFFICE_PROBABILITY <;>
    simp [randomFloat, randint, choice, h, apply_ite]

@[simp]
theorem homeOfficeStep_bike_spaces (fd : FormData) (s : RandState) :
    ((homeOfficeStep fd s).1).bike_spaces = fd.bike_spaces := by
  rw [homeOfficeStep]
  all_goals by_cases h : s.floats s.fIdx < HOME_OFFICE_PROBABILITY <;>
    simp [randomFloat, randint, choice, h, apply_ite]

@[simp]
theorem homeOfficeStep_electric_bike_spaces (fd : FormData) (s : RandState) :
    ((homeOfficeStep fd s).1).electric_bike_spaces = fd.electric_bike_spaces := by
  rw [homeOfficeStep]
  all_goals by_cases h : s.floats s.fIdx < HOME_OFFICE_PROBABILITY <;>
    simp [randomFloat, randint, choice, h, apply_ite]

@[simp]
theorem homeOfficeStep_wants_additional_room (fd : FormData) (s : RandState) :
    ((homeOfficeStep fd s).1).wants_additional_room = fd.wants_additional_room := by
  rw [homeOfficeStep]
  all_goals by_cases h : s.floats s.fIdx < HOME_OFFICE_PROBABILITY <;>
    simp [randomFloat, randint, choice, h, apply_ite]

@[simp]
theorem homeOfficeStep_additional_room_purpose (fd : FormData) (s : RandState) :
    ((homeOfficeStep fd s).1).additional_room_purpose = fd.additional_room_purpose := by
  rw [homeOfficeStep]
  all_goals by_cases h : s.floats s.fIdx < HOME_OFFICE_PROBABILITY <;>
    simp [randomFloat, randint, choice, h, apply_ite]

@[simp]
theorem homeOfficeStep_additional_room_area (fd : FormData) (s : RandState) :
    ((homeOfficeStep fd s).1).additional_room_area = fd.additional_room_area := by
  rw [homeOfficeStep]
  all_goals by_cases h : s.floats s.fIdx < HOME_OFFICE_PROBABILITY <;>
    simp [randomFloat, randint, choice, h, apply_ite]

@[simp]
theorem homeOfficeStep_wants_storage_room (fd : FormData) (s : RandState) :
    ((homeOfficeStep fd s).1).wants_storage_room = fd.wants_storage_room := by
  rw [homeOfficeStep]
  all_goals by_cases h : s.floats s.fIdx < HOME_OFFICE_PROBABILITY <;>
    simp [randomFloat, randint, choice, h, apply_ite]

@[simp]
theorem homeOfficeStep_storage_room_purpose (fd : FormData) (s : RandState) :
    ((homeOfficeStep fd s).1).storage_room_purpose = fd.storage_room_purpose := by
  rw [homeOfficeStep]
  all_goals by_cases h : s.floats s.fIdx < HOME_OFFICE_PROBABILITY <;>
    simp [randomFloat, randint, choice, h, apply_ite]

@[simp]
theorem homeOfficeStep_storage_room_area (fd : FormData) (s : RandState) :
    ((homeOfficeStep fd s).1).storage_room_area = fd.storage_room_area := by
  rw [homeOfficeStep]
  all_goals by_cases h : s.floats s.fIdx < HOME_OFFICE_PROBABILITY <;>
    simp [randomFloat, randint, choice, h, apply_ite]

@[simp]
theorem homeOfficeStep_wants_workshop (fd : FormData) (s : RandState) :
    ((homeOfficeStep fd s).1).wants_workshop = fd.wants_workshop := by
  rw [homeOfficeStep]
  all_goals by_cases h : s.floats s.fIdx < HOME_OFFICE_PROBABILITY <;>
    simp [randomFloat, randint, choice, h, apply_ite]

@[simp]
theorem homeOfficeStep_workshop_purpose (fd : FormData) (s : RandState) :
    ((homeOfficeStep fd s).1).workshop_purpose = fd.workshop_purpose := by
  rw [homeOfficeStep]
  all_goals by_cases h : s.floats s.fIdx < HOME_OFFICE_PROBABILITY <;>
    simp [randomFloat, randint, choice, h, apply_ite]

@[simp]
theorem homeOfficeStep_wants_coworking (fd : FormData) (s : RandState) :
    ((homeOfficeStep fd s).1).wants_coworking = fd.wants_coworking := by
  rw [homeOfficeStep]
  all_goals by_cases h : s.floats s.fIdx < HOME_OFFICE_PROBABILITY <;>
    simp [randomFloat, randint, choice, h, apply_ite]

@[simp]
theorem homeOfficeStep_needs_obstacle_free (fd : FormData) (s : RandState) :
    ((homeOfficeStep fd s).1).needs_obstacle_free = fd.needs_obstacle_free := by
  rw [homeOfficeStep]
  all_goals by_cases h : s.floats s.fIdx < HOME_OFFICE_PROBABILITY <;>
    simp [randomFloat, randint, choice, h, apply_ite]

@[simp]
theorem obstacleStep_parking (fd : FormData) (s : RandState) :
    ((obstacleStep fd s).1).parking = fd.parking := by
  rw [obstacleStep]

@[simp]
theorem obstacleStep_wants_car_sharing (fd : FormData) (s : RandState) :
    ((obstacleStep fd s).1).wants_car_sharing = fd.wants_car_sharing := by
  rw [obstacleStep]

@[simp]
theorem obstacleStep_wants_motorbike_parking (fd : FormData) (s : RandState) :
    ((obstacleStep fd s).1).wants_motorbike_parking = fd.wants_motorbike_parking := by
  rw [obstacleStep]

@[simp]
theorem obstacleStep_motorbike_spaces (fd : FormData) (s : RandState) :
    ((obstacleStep fd s).1).motorbike_spaces = fd.motorbike_spaces := by
  rw [obstacleStep]

@[simp]
theorem obstacleStep_wants_bike_parking (fd : FormData) (s : RandState) :
    ((obstacleStep fd s).1).wants_bike_parking = fd.wants_bike_parking := by
  rw [obstacleStep]

@[simp]
theorem obstacleStep_bike_spaces (fd : FormData) (s : RandState) :
    ((obstacleStep fd s).1).bike_spaces = fd.bike_spaces := by
  rw [obstacleStep]

@[simp]
theorem obstacleStep_electric_bike_spaces (fd : FormData) (s : RandState) :
    ((obstacleStep fd s).1).electric_bike_spaces = fd.electric_bike_spaces := by
  rw [obstacleStep]

@[simp]
theorem obstacleStep_wants_additional_room (fd : FormData) (s : RandState) :
    ((obstacleStep fd s).1).wants_additional_room = fd.wants_additional_room := by
  rw [obstacleStep]

@[simp]
theorem obstacleStep_additional_room_purpose (fd : FormData) (s : RandState) :
    ((obstacleStep fd s).1).additional_room_purpose = fd.additional_room_purpose := by
  rw [obstacleStep]

@[simp]
theorem obstacleStep_additional_room_area (fd : FormData) (s : RandState) :
    ((obstacleStep fd s).1).additional_room_area = fd.additional_room_area := by
  rw [obstacleStep]

@[simp]
theorem obstacleStep_wants_storage_room (fd : FormData) (s : RandState) :
    ((obstacleStep fd s).1).wants_storage_room = fd.wants_storage_room := by
  rw [obstacleStep]

@[simp]
theorem obstacleStep_storage_room_purpose (fd : FormData) (s : RandState) :
    ((obstacleStep fd s).1).storage_room_purpose = fd.storage_room_purpose := by
  rw [obstacleStep]

@[simp]
theorem obstacleStep_storage_room_area (fd : FormData) (s : RandState) :
    ((obstacleStep fd s).1).storage_room_area = fd.storage_room_area := by
  rw [obstacleStep]

@[simp]
theorem obstacleStep_wants_workshop (fd : FormData) (s : RandState) :
    ((obstacleStep fd s).1).wants_workshop = fd.wants_workshop := by
  rw [obstacleStep]

@[simp]
theorem obstacleStep_workshop_purpose (fd : FormData) (s : RandState) :
    ((obstacleStep fd s).1).workshop_purpose = fd.workshop_purpose := by
  rw [obstacleStep]

@[simp]
theorem obstacleStep_wants_coworking (fd : FormData) (s : RandState) :
    ((obstacleStep fd s).1).wants_coworking = fd.wants_coworking := by
  rw [obstacleStep]

@[simp]
theorem obstacleStep_wants_home_office (fd : FormData) (s : RandState) :
    ((obstacleStep fd s).1).wants_home_office = fd.wants_home_office := by
  rw [obstacleStep]

@[simp]
theorem obstacleStep_home_office_reason (fd : FormData) (s : RandState) :
    ((obstacleStep fd s).1).home_office_reason = fd.home_office_reason := by
  rw [obstacleStep]

@[simp]
theorem carSharingStep_wants_car_sharing (fd : FormData) (s : RandState) :
    ((carSharingStep fd s).1).wants_car_sharing = decide (s.floats s.fIdx < CAR_SHARING_PROBABILITY) := by
  rw [carSharingStep]
  simp [randomFloat]

@[simp]
theorem motorbikeStep_wants_motorbike_parking (fd : FormData) (s : RandState) :
    ((motorbikeStep fd s).1).wants_motorbike_parking = (decide (s.floats s.fIdx < MOTORBIKE_PROBABILITY) || fd.wants_motorbike_parking) := by
  rw [motorbikeStep]
  all_goals by_cases h : s.floats s.fIdx < MOTORBIKE_PROBABILITY <;>
    simp [randomFloat, randint, choice, h, apply_ite]

@[simp]
theorem motorbikeStep_motorbike_spaces (fd : FormData) (s : RandState) :
    ((motorbikeStep fd s).1).motorbike_spaces = (if s.floats s.fIdx < MOTORBIKE_PROBABILITY then 1 else fd.motorbike_spaces) := by
  rw [motorbikeStep]
  all_goals by_cases h : s.floats s.fIdx < MOTORBIKE_PROBABILITY <;>
    simp [randomFloat, randint, choice, h, apply_ite]

@[simp]
theorem bikeStep_wants_bike_parking (fd : FormData) (s : RandState) :
    ((bikeStep fd s).1).wants_bike_parking = (decide (s.floats s.fIdx < BIKE_PARKING_PROBABILITY) || fd.wants_bike_parking) := by
  rw [bikeStep]
  all_goals by_cases h : s.floats s.fIdx < BIKE_PARKING_PROBABILITY <;>
    simp [randomFloat, randint, choice, h, apply_ite]

@[simp]
theorem bikeStep_bike_spaces (fd : FormData) (s : RandState) :
    ((bikeStep fd s).1).bike_spaces = (if s.floats s.fIdx < BIKE_PARKING_PROBABILITY then 1 + (s.ints s.iIdx : Int) % 3 else fd.bike_spaces) := by
  rw [bikeStep]
  all_goals by_cases h : s.floats s.fIdx < BIKE_PARKING_PROBABILITY <;>
    simp [randomFloat, randint, choice, h, apply_ite]

@[simp]
theorem addRoomStep_wants_additional_room (fd : FormData) (s : RandState) :
    ((addRoomStep fd s).1).wants_additional_room = (decide (s.floats s.fIdx < ADDITIONAL_ROOM_PROBABILITY) || fd.wants_additional_room) := by
  rw [addRoomStep]
  all_goals by_cases h : s.floats s.fIdx < ADDITIONAL_ROOM_PROBABILITY <;>
    simp [randomFloat, randint, choice, h, apply_ite]

@[simp]
theorem storageStep_wants_storage_room (fd : FormData) (s : RandState) :
    ((storageStep fd s).1).wants_storage_room = (decide (s.floats s.fIdx < STORAGE_ROOM_PROBABILITY) || fd.wants_storage_room) := by
  rw [storageStep]
  all_goals by_cases h : s.floats s.fIdx < STORAGE_ROOM_PROBABILITY <;>
    simp [randomFloat, randint, choice, h, apply_ite]

@[simp]
theorem workshopStep_wants_workshop (fd : FormData) (s : RandState) :
    ((workshopStep fd s).1).wants_workshop = (decide (s.floats s.fIdx < WORKSHOP_PROBABILITY) || fd.wants_workshop) := by
  rw [workshopStep]
  all_goals by_cases h : s.floats s.fIdx < WORKSHOP_PROBABILITY <;>
    simp [randomFloat, randint, choice, h, apply_ite]

@[simp]
theorem coworkingStep_wants_coworking (fd : FormData) (s : RandState) :
    ((coworkingStep fd s).1).wants_coworking = decide (s.floats s.fIdx < COWORKING_PROBABILITY) := by
  rw [coworkingStep]
  simp [randomFloat]

@[simp]
theorem homeOfficeStep_wants_home_office (fd : FormData) (s : RandState) :
    ((homeOfficeStep fd s).1).wants_home_office = (decide (s.floats s.fIdx < HOME_OFFICE_PROBABILITY) || fd.wants_home_office) := by
  rw [homeOfficeStep]
  all_goals by_cases h : s.floats s.fIdx < HOME_OFFICE_PROBABILITY <;>
    simp [randomFloat, randint, choice, h, apply_ite]

@[simp]
theorem obstacleStep_needs_obstacle_free (fd : FormData) (s : RandState) :
    ((obstacleStep fd s).1).needs_obstacle_free = decide (s.floats s.fIdx < ACCESSIBILITY_PROBABILITY) := by
  rw [obstacleStep]
  simp [randomFloat]

theorem bikeStep_electric_bike_spaces_not_taken (fd : FormData) (s : RandState)
    (h : ¬ s.floats s.fIdx < BIKE_PARKING_PROBABILITY) :
    ((bikeStep fd s).1).electric_bike_spaces = fd.electric_bike_spaces := by
  rw [bikeStep]
  simp [randomFloat, h]

theorem addRoomStep_additional_room_purpose_not_taken (fd : FormData) (s : RandState)
    (h : ¬ s.floats s.fIdx < ADDITIONAL_ROOM_PROBABILITY) :
    ((addRoomStep fd s).1).additional_room_purpose = fd.additional_room_purpose := by
  rw [addRoomStep]
  simp [randomFloat, h]

theorem addRoomStep_additional_room_area_not_taken (fd : FormData) (s : RandState)
    (h : ¬ s.floats s.fIdx < ADDITIONAL_ROOM_PROBABILITY) :
    ((addRoomStep fd s).1).additional_room_area = fd.additional_room_area := by
  rw [addRoomStep]
  simp [randomFloat, h]

theorem storageStep_storage_room_purpose_not_taken (fd : FormData) (s : RandState)
    (h : ¬ s.floats s.fIdx < STORAGE_ROOM_PROBABILITY) :
    ((storageStep fd s).1).storage_room_purpose = fd.storage_room_purpose := by
  rw [storageStep]
  simp [randomFloat, h]

theorem storageStep_storage_room_area_not_taken (fd : FormData) (s : RandState)
    (h : ¬ s.floats s.fIdx < STORAGE_ROOM_PROBABILITY) :
    ((storageStep fd s).1).storage_room_area = fd.storage_room_area := by
  rw [storageStep]
  simp [randomFloat, h]

theorem workshopStep_workshop_purpose_not_taken (fd : FormData) (s : RandState)
    (h : ¬ s.floats s.fIdx < WORKSHOP_PROBABILITY) :
    ((workshopStep fd s).1).workshop_purpose = fd.workshop_purpose := by
  rw [workshopStep]
  simp [randomFloat, h]

theorem homeOfficeStep_home_office_reason_not_taken (fd : FormData) (s : RandState)
    (h : ¬ s.floats s.fIdx < HOME_OFFICE_PROBABILITY) :
    ((homeOfficeStep fd s).1).home_office_reason = fd.home_office_reason := by
  rw [homeOfficeStep]
  simp [randomFloat, h]

/-- When the PARKING_PROBABILITY gate fails, the parking block leaves the
defaults and consumes only the gate draw. -/
theorem parkingStep_not_taken (s : RandState)
    (h : ¬ s.floats s.fIdx < PARKING_PROBABILITY) :
    parkingStep s = ({}, (randomFloat s).2) := by
  rw [parkingStep]
  simp [randomFloat, h]

/-- When the PARKING_PROBABILITY gate passes, wants_parking is set. -/
theorem parkingStep_taken_wants (s : RandState)
    (h : s.floats s.fIdx < PARKING_PROBABILITY) :
    ((parkingStep s).1).wants_parking = true := by
  rw [parkingStep]
  simp only [randomFloat]
  rw [if_pos h]
  rcases hp1 : parkingFieldDraw { s with fIdx := s.fIdx + 1 } with ⟨v1, t1⟩
  rcases hp2 : parkingFieldDraw t1 with ⟨v2, t2⟩
  rcases hp3 : parkingFieldDraw t2 with ⟨v3, t3⟩
  rcases hp4 : parkingFieldDraw t3 with ⟨v4, t4⟩
  rcases hp5 : parkingFieldDraw t4 with ⟨v5, t5⟩
  by_cases hr : t5.floats t5.fIdx < 0.6 <;> simp [choice, hr]

/-! ## Helper lemmas -/

/-- Reading any field of `setField p f v` gives `v` at `f` and the original
value elsewhere. -/
theorem getField_setField (p : PersonData) (f g : Field) (v : Option PyLit) :
    getField (setField p f v) g = if g = f then v else getField p g := by
  cases f <;> cases g <;> rfl

/-- A field no keyword argument names is copied unchanged by
`dataclasses.replace`. -/
theorem getField_replaceFields_of_not_mem (kwargs : List (Field × Option PyLit))
    (p : PersonData) (g : Field) (hg : ∀ kv ∈ kwargs, kv.1 ≠ g) :
    getField (replaceFields p kwargs) g = getField p g := by
  induction kwargs generalizing p with
  | nil => rfl
  | cons kv rest ih =>
    have h1 : kv.1 ≠ g := hg kv (List.mem_cons_self kv rest)
    have h2 : ∀ kv2 ∈ rest, kv2.1 ≠ g := fun kv2 hm => hg kv2 (List.mem_cons_of_mem kv hm)
    show getField (replaceFields (setField p kv.1 kv.2) rest) g = getField p g
    rw [ih (setField p kv.1 kv.2) h2, getField_setField, if_neg (Ne.symm h1)]

/-- Concatenating the error prefix behind the directory slash. -/
theorem append_slash_error (b c : String) :
    b ++ "/" ++ ("error_" ++ c ++ ".png") = b ++ "/error_" ++ c ++ ".png" := by
  have h : ("/" : String) ++ "error_" = "/error_" := rfl
  rw [← h]
  simp only [String.append_assoc]

/-! ## Claim theorems -/

/-- C1: the cross-module reference is not well-formed.  `PersonData` is
imported from `data.models` by data/factories.py, pages/admin_applications_page.py
and pages/people_form_page.py, but data/models.py defines no `PersonData`,
so every one of those imports fails (an ImportError at module load). -/
theorem persondata_import_is_broken :
    importOk factoriesImports = false
      ∧ importOk adminApplicationsImports = false
      ∧ importOk peopleFormImports = false
      ∧ factoriesImports.contains "PersonData" = true
      ∧ modelsDefinedNames.contains "PersonData" = false := by
  decide

/-- C8: the screenshot file layout is deterministic in the name argument:
`capture` saves at `base_dir/name.png` (with the caller's full-page flag)
and returns exactly that path, and `capture_error ctx` saves a full-page
screenshot at `base_dir/error_ctx.png` and returns that path. -/
theorem screenshot_paths_deterministic :
    ∀ (m : ScreenshotManager) (name error_context : String) (full_page : Bool),
      capture m name full_page = (m.base_dir ++ "/" ++ name ++ ".png", full_page)
      ∧ capture_error m error_context
          = (m.base_dir ++ "/error_" ++ error_context ++ ".png", true) := by
  intro m name error_context full_page
  constructor
  · show (m.base_dir ++ "/" ++ (name ++ ".png"), full_page) = _
    rw [← String.append_assoc]
  · show (m.base_dir ++ "/" ++ ("error_" ++ error_context ++ ".png"), true) = _
    rw [append_slash_error]

/-- C3: selector-fallback chains resolve to the first productive selector:
`find_visible_elements` returns the visible elements of the first selector
in list order that yields at least one visible element; a selector whose
query raises is skipped, and when no selector yields a visible element the
result is the empty list. -/
theorem find_visible_elements_first_productive :
    ∀ (page : PageQuery) (selectors : List String),
      find_visible_elements page selectors
        = (((selectors.map (visibleOf page)).find? (fun l => !l.isEmpty)).getD []) := by
  intro page selectors
  induction selectors with
  | nil => rfl
  | cons selector rest ih =>
    show find_visible_elements page (selector :: rest) = _
    rw [find_visible_elements]
    simp only [List.map_cons, List.find?_cons]
    cases hq : page selector with
    | error e =>
      have hv : visibleOf page selector = [] := by
        rw [visibleOf, hq]
      rw [hv]
      simpa using ih
    | ok elements =>
      have hv : visibleOf page selector = elements.filter (fun e => e.visible) := by
        rw [visibleOf, hq]
      rw [hv]
      by_cases h : (elements.filter (fun e => e.visible)).isEmpty
      · simp [h, ih]
      · simp [h]

/-- The loop of `click_with_retry` executes at most `fuel` attempts. -/
theorem clickLoop_count_le (env : Nat → AttemptOutcome) (max_attempts : Nat) :
    ∀ (fuel i : Nat), (clickLoop env max_attempts fuel i).2 ≤ fuel := by
  intro fuel
  induction fuel with
  | zero => intro i; simp [clickLoop]
  | succ n ih =>
    intro i
    rw [clickLoop]
    cases env i with
    | clicked => simp
    | noVisible => simpa using ih (i + 1)
    | raised =>
      by_cases h : i = max_attempts - 1
      · simp [h]
      · simpa [h] using ih (i + 1)

/-- The loop of `click_with_retry` returns True exactly when one of the
attempts it may still execute clicks. -/
theorem clickLoop_true_iff (env : Nat → AttemptOutcome) (max_attempts : Nat) :
    ∀ (fuel i : Nat), i + fuel = max_attempts →
      ((clickLoop env max_attempts fuel i).1 = true ↔
        ∃ j, j < fuel ∧ env (i + j) = .clicked) := by
  intro fuel
  induction fuel with
  | zero =>
    intro i _
    simp [clickLoop]
  | succ n ih =>
    intro i him
    rw [clickLoop]
    cases ho : env i with
    | clicked =>
      simp only [true_iff]
      exact ⟨0, Nat.succ_pos n, by simpa using ho⟩
    | noVisible =>
      have hrec := ih (i + 1) (by omega)
      simp only [hrec]
      constructor
      · rintro ⟨j, hj, hcl⟩
        exact ⟨j + 1, by omega, by rwa [show i + (j + 1) = i + 1 + j by omega]⟩
      · rintro ⟨j, hj, hcl⟩
        cases j with
        | zero => rw [Nat.add_zero] at hcl; rw [hcl] at ho; cases ho
        | succ k =>
          exact ⟨k, by omega, by rwa [show i + 1 + k = i + (k + 1) by omega]⟩
    | raised =>
      by_cases hlast : i = max_attempts - 1
      · have hn : n = 0 := by omega
        subst hn
        simp only [if_pos hlast]
        constructor
        · intro hfalse
          exact absurd hfalse (by decide)
        · rintro ⟨j, hj, hcl⟩
          have hj0 : j = 0 := by omega
          rw [hj0, Nat.add_zero] at hcl
          rw [hcl] at ho
          cases ho
      · have hrec := ih (i + 1) (by omega)
        simp only [if_neg hlast, hrec]
        constructor
        · rintro ⟨j, hj, hcl⟩
          exact ⟨j + 1, by omega, by rwa [show i + (j + 1) = i + 1 + j by omega]⟩
        · rintro ⟨j, hj, hcl⟩
          cases j with
          | zero => rw [Nat.add_zero] at hcl; rw [hcl] at ho; cases ho
          | succ k =>
            exact ⟨k, by omega, by rwa [show i + 1 + k = i + (k + 1) by omega]⟩

/-- C4: `click_with_retry` makes at most `max_attempts` attempts, returns
True exactly when some attempt within the budget finds a visible element
and clicks it (so False when all attempts fail), and — the whole loop body
living under `except Exception` — its embedding is a total function: no
attempt's exception reaches the caller. -/
theorem click_with_retry_bounded_and_correct :
    ∀ (env : Nat → AttemptOutcome) (max_attempts : Nat),
      (click_with_retry env max_attempts).2 ≤ max_attempts
      ∧ ((click_with_retry env max_attempts).1 = true ↔
          ∃ j, j < max_attempts ∧ env j = .clicked) := by
  intro env max_attempts
  refine ⟨clickLoop_count_le env max_attempts max_attempts 0, ?_⟩
  have h := clickLoop_true_iff env max_attempts max_attempts 0 (Nat.zero_add _)
  rw [click_with_retry, h]
  simp

/-- C7: for every apartment element, `add_apartment` is decided by the
first visible wishlist button: disabled (its class contains "disabled"
case-insensitively) returns False with no click, otherwise that button is
clicked and True returned; with no visible button it returns False, a
raising query also returns False (the outer `except`); and True is only
ever returned with a visible, non-disabled button recorded as clicked.
The last conjunct places the wishlist outcome in the main workflow: with
every other phase outcome fixed, the form phases run whether or not the
wishlist attempt succeeded. -/
theorem add_apartment_first_visible_decides :
    ∀ (query : Except String (List WishlistButton)) (elements : List WishlistButton)
      (err : String) (wishlistOk : Bool),
      (add_apartment (.ok elements)
        = match elements.find? (fun e => e.visible) with
          | none => (false, none)
          | some b => if buttonDisabled b then (false, none) else (true, some b))
      ∧ ((add_apartment query).1 = true →
          ∃ b, (add_apartment query).2 = some b
            ∧ b.visible = true ∧ buttonDisabled b = false)
      ∧ (add_apartment (.error err) = (false, none))
      ∧ (WfEvent.formVerify ∈ workflow_trace
          { apartments := true, selectOk := true, wishlistOk := wishlistOk,
            applyOk := true, altApplyOk := true, fillRaises := false }) := by
  intro query elements err wishlistOk
  have hloop : ∀ l : List WishlistButton,
      addLoop l = match l.find? (fun e => e.visible) with
        | none => (false, none)
        | some b => if buttonDisabled b then (false, none) else (true, some b) := by
    intro l
    induction l with
    | nil => rfl
    | cons e rest ih =>
      rw [addLoop, List.find?_cons]
      by_cases hv : e.visible
      · simp [hv]
      · simp only [hv, if_false]
        simpa [hv] using ih
  refine ⟨hloop elements, ?_, rfl, ?_⟩
  · intro htrue
    cases query with
    | error e => simp [add_apartment] at htrue
    | ok es =>
      rw [show add_apartment (.ok es) = addLoop es from rfl, hloop es] at htrue ⊢
      cases hf : es.find? (fun e => e.visible) with
      | none =>
        rw [hf] at htrue
        exact absurd htrue (by decide)
      | some b =>
        rw [hf] at htrue
        dsimp only at htrue ⊢
        by_cases hd : buttonDisabled b
        · rw [if_pos hd] at htrue
          exact absurd htrue (by decide)
        · rw [if_neg hd] at htrue ⊢
          exact ⟨b, rfl, by simpa using List.find?_some hf, by simpa using hd⟩
  · cases wishlistOk <;> decide

/-- C6 counterexample: the standalone admin-verification test performs the
admin-panel verification phase with no form-submission phase anywhere in
its run, so "admin verification happens only after form submission" fails
for the suite's executable flows. -/
theorem admin_verification_without_submission :
    WfEvent.adminVerify ∈ admin_test_trace { loginOk := true, navOk := true }
      ∧ WfEvent.formSubmit ∉ admin_test_trace { loginOk := true, navOk := true } := by
  decide

/-- C6 (amended): the main workflow's trace follows the stated phase order
(it is a sublist of browse, find, select, details, wishlist, panel, apply,
form verify, start, fill, submit), form filling never begins unless
apartments were found and one was selected, and submission never happens
before filling began; the workflow itself ends at submission, and
admin-panel verification lives in the standalone admin test, whose trace
follows its own order and never contains a form phase. -/
theorem workflow_phase_order_holds :
    ∀ (env : WorkflowEnv) (aenv : AdminTestEnv),
      List.Sublist (workflow_trace env) workflowPhaseOrder
      ∧ (WfEvent.formFill ∈ workflow_trace env →
          WfEvent.findApartments ∈ workflow_trace env
            ∧ WfEvent.selectApartment ∈ workflow_trace env)
      ∧ (WfEvent.formSubmit ∈ workflow_trace env →
          WfEvent.formFill ∈ workflow_trace env)
      ∧ List.Sublist (admin_test_trace aenv) adminPhaseOrder
      ∧ WfEvent.formSubmit ∉ admin_test_trace aenv := by
  intro env aenv
  obtain ⟨a, b, c, d, e, f⟩ := env
  obtain ⟨g, h⟩ := aenv
  revert a b c d e f g h
  decide

/-- When the three matched fields are strings, `rowMatchE` never raises and
computes the disjunction of the three substring tests. -/
theorem rowMatchE_string_fields (p : PersonData) (t fn ln em : String)
    (hfn : p.first_name = some (.s fn)) (hln : p.last_name = some (.s ln))
    (hem : p.email = some (.s em)) :
    rowMatchE p t = .ok (strContains (lowerStr t) (lowerStr ln)
      || strContains (lowerStr t) (lowerStr em)
      || (strContains (lowerStr t) (lowerStr fn) && strContains (lowerStr t) (lowerStr ln))) := by
  rw [rowMatchE, hfn, hln, hem]
  by_cases h1 : strContains (lowerStr t) (lowerStr ln)
  · simp [pyLowerField, h1]
  · by_cases h2 : strContains (lowerStr t) (lowerStr em)
    · simp [pyLowerField, h1, h2]
    · simp [pyLowerField, h1, h2]

/-- When the three matched fields are strings, one loop step of
`_manual_row_search` matches exactly the non-empty row texts satisfying the
claimed containment condition. -/
theorem rowMatches_string_fields (p : PersonData) (rt : Option String) (fn ln em : String)
    (hfn : p.first_name = some (.s fn)) (hln : p.last_name = some (.s ln))
    (hem : p.email = some (.s em)) :
    rowMatches p rt = true ↔
      ∃ t, rt = some t ∧ t ≠ ""
        ∧ (strContains (lowerStr t) (lowerStr ln) = true
            ∨ strContains (lowerStr t) (lowerStr em) = true
            ∨ (strContains (lowerStr t) (lowerStr fn) = true
                ∧ strContains (lowerStr t) (lowerStr ln) = true)) := by
  cases rt with
  | none => simp [rowMatches]
  | some t =>
    rw [rowMatches]
    by_cases ht : t = ""
    · simp [ht]
    · rw [if_neg ht, rowMatchE_string_fields p t fn ln em hfn hln hem]
      simp [ht, Bool.or_eq_true, Bool.and_eq_true, or_assoc]

/-- The later checks of `_verify_table_data` never touch `name_found`:
the date check hands it through. -/
theorem dateCheck_name_found (v w : TableVerification) (p : PersonData) (ft : String)
    (h : dateCheck v p ft = .ok w ∨ dateCheck v p ft = .error w) :
    w.name_found = v.name_found := by
  rw [dateCheck] at h
  rcases hm : p.move_in_date with _ | lit
  · rw [hm] at h
    rcases h with h | h
    · cases h; rfl
    · cases h
  · rcases lit with t | b
    · rw [hm] at h
      rcases h with h | h
      · cases h
        by_cases ht : t = "" <;> simp [ht]
      · cases h
    · rw [hm] at h
      cases b
      · rcases h with h | h
        · cases h; rfl
        · cases h
      · rcases h with h | h
        · cases h
        · cases h; rfl

/-- The additional-family-members check hands `name_found` through. -/
theorem additionalCheck_name_found (v w : TableVerification)
    (all_applicants : List PersonData) (ft : String)
    (h : additionalCheck v all_applicants ft = .ok w
        ∨ additionalCheck v all_applicants ft = .error w) :
    w.name_found = v.name_found := by
  rcases all_applicants with _ | ⟨a, _ | ⟨b2, rest⟩⟩ <;>
    simp only [additionalCheck] at h
  · rcases h with h | h
    · cases h; rfl
    · cases h
  · rcases h with h | h
    · cases h; rfl
    · cases h
  · rcases h with h | h
    · cases hn : countHits ft (b2 :: rest) with
      | error e => rw [hn] at h; cases h
      | ok n =>
        rw [hn] at h
        cases h
        by_cases h0 : 0 < n <;> simp [h0]
    · cases hn : countHits ft (b2 :: rest) with
      | error e => rw [hn] at h; cases h; rfl
      | ok n => rw [hn] at h; cases h

/-- The `name_found` flag `_verify_table_data` returns is exactly the
verdict of the name-variant loop, whatever the later checks do. -/
theorem verify_table_data_name_found (row : RowData) (p : PersonData)
    (all_applicants : List PersonData) :
    (verify_table_data row p all_applicants).name_found
      = verify_name_found p row.full_row_text := by
  rw [verify_table_data]
  cases hmail : pyLowerField p.email with
  | error e => rfl
  | ok em =>
    dsimp only
    cases hdc : dateCheck
        { name_found := verify_name_found p row.full_row_text,
          email_found := strContains (lowerStr row.full_row_text) em }
        p (lowerStr row.full_row_text) with
    | error v => exact dateCheck_name_found _ v p _ (Or.inr hdc)
    | ok v3 =>
      dsimp only
      have h3 : v3.name_found = verify_name_found p row.full_row_text :=
        dateCheck_name_found _ v3 p _ (Or.inl hdc)
      cases hac : additionalCheck v3 all_applicants (lowerStr row.full_row_text) with
      | error v => exact (additionalCheck_name_found v3 v _ _ (Or.inr hac)).trans h3
      | ok v4 => exact (additionalCheck_name_found v3 v4 _ _ (Or.inl hac)).trans h3

/-- C2 counterexample: with present-but-empty name and email fields, a row
whose text is the empty string does contain the (lowercased) last name —
the empty pattern is contained in every string — yet `_manual_row_search`
returns no row, because `if row_text and (...)` skips rows whose text is
falsy (empty) before the containment tests run.  This refutes the claimed
"exactly when" equivalence as stated. -/
theorem manual_row_search_empty_text_mismatch :
    manual_row_search
        { first_name := some (.s ""), last_name := some (.s ""), email := some (.s "") }
        [some ""]
      = none
    ∧ strContains (lowerStr "") (lowerStr "") = true := by
  exact ⟨rfl, rfl⟩

/-- C2 (amended): for an applicant whose first name, last name and email
are strings, `_manual_row_search` returns a row exactly when some row has
NON-EMPTY text that contains (lowercased) the last name, or the email, or
both the first and the last name — rows with empty or missing text are
skipped by the `if row_text and ...` guard; and `_verify_table_data` sets
`name_found` exactly when the lowercased row text contains one of the four
lowercased variants "first last", "last, first", "last", "first". -/
theorem admin_matching_characterised
    (main_applicant : PersonData) (rows : List (Option String))
    (row : RowData) (all_applicants : List PersonData) (fn ln em : String)
    (hfn : main_applicant.first_name = some (.s fn))
    (hln : main_applicant.last_name = some (.s ln))
    (hem : main_applicant.email = some (.s em)) :
    ((manual_row_search main_applicant rows).isSome = true ↔
      ∃ rt ∈ rows, ∃ t, rt = some t ∧ t ≠ ""
        ∧ (strContains (lowerStr t) (lowerStr ln) = true
            ∨ strContains (lowerStr t) (lowerStr em) = true
            ∨ (strContains (lowerStr t) (lowerStr fn) = true
                ∧ strContains (lowerStr t) (lowerStr ln) = true)))
    ∧ ((verify_table_data row main_applicant all_applicants).name_found = true ↔
        ∃ v ∈ [lowerStr (fn ++ " " ++ ln), lowerStr (ln ++ ", " ++ fn),
               lowerStr ln, lowerStr fn],
          strContains (lowerStr row.full_row_text) v = true) := by
  constructor
  · rw [manual_row_search, List.find?_isSome]
    exact exists_congr fun rt => and_congr_right fun _ =>
      rowMatches_string_fields main_applicant rt fn ln em hfn hln hem
  · rw [verify_table_data_name_found, verify_name_found, List.any_eq_true,
        nameVariants, hfn, hln]
    rfl

/-- C2 witness: the amended characterisation applied to a concrete
applicant, row list and row text. -/
theorem admin_matching_characterised_witness :
    ((manual_row_search
        { first_name := some (.s "John"), last_name := some (.s "Test"),
          email := some (.s "john@x.ch") }
        [some "0 John Test john@x.ch pending"]).isSome = true ↔
      ∃ rt ∈ [some "0 John Test john@x.ch pending"], ∃ t, rt = some t ∧ t ≠ ""
        ∧ (strContains (lowerStr t) (lowerStr "Test") = true
            ∨ strContains (lowerStr t) (lowerStr "john@x.ch") = true
            ∨ (strContains (lowerStr t) (lowerStr "John") = true
                ∧ strContains (lowerStr t) (lowerStr "Test") = true)))
    ∧ ((verify_table_data { full_row_text := "row without names" }
          { first_name := some (.s "John"), last_name := some (.s "Test"),
            email := some (.s "john@x.ch") }
          []).name_found = true ↔
        ∃ v ∈ [lowerStr ("John" ++ " " ++ "Test"), lowerStr ("Test" ++ ", " ++ "John"),
               lowerStr "Test", lowerStr "John"],
          strContains (lowerStr "row without names") v = true) :=
  admin_matching_characterised
    { first_name := some (.s "John"), last_name := some (.s "Test"),
      email := some (.s "john@x.ch") }
    [some "0 John Test john@x.ch pending"]
    { full_row_text := "row without names" }
    [] "John" "Test" "john@x.ch" rfl rfl rfl

/-- C9: each TestDataFactory mutator returns a new PersonData that differs
from its input only in the named fields: make_invalid_email only sets email
to "invalid-email-format"; make_invalid_phone only phone_number to "123";
make_future_birth_date only date_of_birth to "01.01.2030";
make_invalid_postal_code only post_code to "99999" and city to
"InvalidCity"; make_missing_required_field only the named field to None;
customize_person only the keyword-named fields.  The input `p` itself is
left unchanged: the embedding of `dataclasses.replace` is a pure function
that reads `p` and builds a fresh record. -/
theorem factory_mutators_change_only_named_fields :
    ∀ (p : PersonData) (field_name g : Field) (kwargs : List (Field × Option PyLit)),
      (getField (make_invalid_email p) .email = some (.s "invalid-email-format")
        ∧ (g ≠ .email → getField (make_invalid_email p) g = getField p g))
      ∧ (getField (make_invalid_phone p) .phone_number = some (.s "123")
        ∧ (g ≠ .phone_number → getField (make_invalid_phone p) g = getField p g))
      ∧ (getField (make_future_birth_date p) .date_of_birth = some (.s "01.01.2030")
        ∧ (g ≠ .date_of_birth → getField (make_future_birth_date p) g = getField p g))
      ∧ (getField (make_invalid_postal_code p) .post_code = some (.s "99999")
        ∧ getField (make_invalid_postal_code p) .city = some (.s "InvalidCity")
        ∧ (g ≠ .post_code → g ≠ .city →
            getField (make_invalid_postal_code p) g = getField p g))
      ∧ (getField (make_missing_required_field p field_name) field_name = none
        ∧ (g ≠ field_name →
            getField (make_missing_required_field p field_name) g = getField p g))
      ∧ ((∀ kv ∈ kwargs, kv.1 ≠ g) →
          getField (customize_person p kwargs) g = getField p g) := by
  intro p field_name g kwargs
  have hsingle : ∀ (f : Field) (v : Option PyLit),
      replaceFields p [(f, v)] = setField p f v := fun f v => rfl
  refine ⟨⟨?_, ?_⟩, ⟨?_, ?_⟩, ⟨?_, ?_⟩, ⟨?_, ?_, ?_⟩, ⟨?_, ?_⟩, ?_⟩
  · rw [make_invalid_email, hsingle, getField_setField, if_pos rfl]
  · intro h
    rw [make_invalid_email, hsingle, getField_setField, if_neg h]
  · rw [make_invalid_phone, hsingle, getField_setField, if_pos rfl]
  · intro h
    rw [make_invalid_phone, hsingle, getField_setField, if_neg h]
  · rw [make_future_birth_date, hsingle, getField_setField, if_pos rfl]
  · intro h
    rw [make_future_birth_date, hsingle, getField_setField, if_neg h]
  · show getField (setField (setField p .post_code _) .city _) .post_code = _
    rw [getField_setField, if_neg (by decide), getField_setField, if_pos rfl]
  · show getField (setField (setField p .post_code _) .city _) .city = _
    rw [getField_setField, if_pos rfl]
  · intro h1 h2
    show getField (setField (setField p .post_code _) .city _) g = _
    rw [getField_setField, if_neg h2, getField_setField, if_neg h1]
  · rw [make_missing_required_field, hsingle, getField_setField, if_pos rfl]
  · intro h
    rw [make_missing_required_field, hsingle, getField_setField, if_neg h]
  · intro h
    exact getField_replaceFields_of_not_mem kwargs p g h

/-- C10 counterexample: once the page can no longer be screenshotted (the
screenshot call raises, as it does when the browser page is gone), the
error-screenshot capture in the not-found branch raises, and then the
`except` handler's own `capture_error` raises too — so
verify_applicant_in_table propagates the exception instead of returning a
result dict, refuting "never raises". -/
theorem verify_applicant_in_table_raises :
    verify_applicant_in_table
        { waitTable := .ok (), findRow := none,
          screenshot := fun _ => .error "page closed" }
        [{}]
      = .error "page closed" := by
  rfl

/-- C10 (amended): verify_applicant_in_table returns the result record
(with its four keys) in every run in which the `except` handler's own
error-screenshot capture does not raise, and when it does raise that very
exception is what propagates; whenever a record is returned:
with empty expected data `found_in_table` is false and `errors` non-empty,
with no matching row likewise, and an exception `e` from the table wait is
converted into the appended entry "Error during verification: e". -/
theorem verify_applicant_error_handling :
    ∀ (env : VerifyEnv) (expected_data : List PersonData),
      (∀ e, verify_applicant_in_table env expected_data = .error e →
          env.screenshot "error_applicant_verification_error" = .error e)
      ∧ (∀ r, verify_applicant_in_table env expected_data = .ok r →
          expected_data = [] → r.found_in_table = false ∧ r.errors ≠ [])
      ∧ (∀ r, verify_applicant_in_table env expected_data = .ok r →
          env.findRow = none → r.found_in_table = false ∧ r.errors ≠ [])
      ∧ (∀ e r, env.waitTable = .error e →
          verify_applicant_in_table env expected_data = .ok r →
          ("Error during verification: " ++ e) ∈ r.errors) := by
  intro env expected_data
  have hhandler : ∀ (r : VerificationResults) (e e2 : String),
      verifyHandler env r e = .error e2 →
        env.screenshot "error_applicant_verification_error" = .error e2 := by
    intro r e e2 h
    rw [verifyHandler] at h
    cases hs : env.screenshot "error_applicant_verification_error" with
    | error e3 => rw [hs] at h; cases h; rfl
    | ok u => rw [hs] at h; cases h
  have hhandler_ok : ∀ (r : VerificationResults) (e : String) (w : VerificationResults),
      verifyHandler env r e = .ok w →
        w = addError r ("Error during verification: " ++ e) := by
    intro r e w h
    rw [verifyHandler] at h
    cases hs : env.screenshot "error_applicant_verification_error" with
    | error e3 => rw [hs] at h; cases h
    | ok u => rw [hs] at h; cases h; rfl
  rw [verify_applicant_in_table.eq_def]
  cases hw : env.waitTable with
  | error e0 =>
    refine ⟨fun e h => hhandler _ _ _ h, ?_, ?_, ?_⟩
    · intro r hr _
      rw [hhandler_ok _ _ _ hr]
      exact ⟨rfl, by simp [addError]⟩
    · intro r hr _
      rw [hhandler_ok _ _ _ hr]
      exact ⟨rfl, by simp [addError]⟩
    · intro e r he hr
      rw [hhandler_ok _ _ _ hr]
      cases he
      simp [addError]
  | ok u =>
    cases expected_data with
    | nil =>
      refine ⟨fun e h => absurd h (by simp), ?_, ?_, ?_⟩
      · intro r hr _
        cases hr
        exact ⟨rfl, by simp [addError]⟩
      · intro r hr _
        cases hr
        exact ⟨rfl, by simp [addError]⟩
      · intro e r he _
        simp at he
    | cons main_applicant rest =>
      cases hr : env.findRow with
      | none =>
        cases hs : env.screenshot "error_applicant_not_found_in_table" with
        | error e1 =>
          refine ⟨fun e h => hhandler _ _ _ h, ?_, ?_, ?_⟩
          · intro r hrr hemp
            simp at hemp
          · intro r hrr _
            rw [hhandler_ok _ _ _ hrr]
            exact ⟨rfl, by simp [addError]⟩
          · intro e r he _
            simp at he
        | ok u2 =>
          refine ⟨fun e h => absurd h (by simp), ?_, ?_, ?_⟩
          · intro r hrr hemp
            simp at hemp
          · intro r hrr _
            cases hrr
            exact ⟨rfl, by simp [addError]⟩
          · intro e r he _
            simp at he
      | some row =>
        cases hs : env.screenshot "12_applicant_verified_in_table" with
        | error e1 =>
          refine ⟨fun e h => hhandler _ _ _ h, ?_, ?_, ?_⟩
          · intro r hrr hemp
            simp at hemp
          · intro r hrr hnone
            simp at hnone
          · intro e r he _
            simp at he
        | ok u2 =>
          refine ⟨fun e h => absurd h (by simp), ?_, ?_, ?_⟩
          · intro r hrr hemp
            simp at hemp
          · intro r hrr hnone
            simp at hnone
          · intro e r he _
            simp at he

/-- C5: treating each call to random.random() as an input (the next value
of the float stream at the point the call happens),
create_realistic_applicant sets each requirement flag exactly when its own
draw is below its configured TestConfig probability constant —
wants_parking below PARKING_PROBABILITY, wants_car_sharing below
CAR_SHARING_PROBABILITY, wants_motorbike_parking below
MOTORBIKE_PROBABILITY, wants_bike_parking below BIKE_PARKING_PROBABILITY
(with bike_spaces then in 1..3), wants_additional_room below
ADDITIONAL_ROOM_PROBABILITY, wants_storage_room below
STORAGE_ROOM_PROBABILITY, wants_workshop below WORKSHOP_PROBABILITY,
wants_coworking below COWORKING_PROBABILITY, wants_home_office below
HOME_OFFICE_PROBABILITY and needs_obstacle_free below
ACCESSIBILITY_PROBABILITY — and whenever a wants flag is false the
corresponding purpose, reason and space fields keep their defaults
(None or 0). -/
theorem create_realistic_applicant_gates :
    ∀ s : RandState,
      let pr := parkingStep s
      let hh := householdStep pr.2
      let fd0 : FormData := { parking := pr.1, household := hh.1 }
      let c1 := carSharingStep fd0 hh.2
      let c2 := motorbikeStep c1.1 c1.2
      let c3 := bikeStep c2.1 c2.2
      let c4 := addRoomStep c3.1 c3.2
      let c5 := storageStep c4.1 c4.2
      let c6 := workshopStep c5.1 c5.2
      let c7 := coworkingStep c6.1 c6.2
      let c8 := homeOfficeStep c7.1 c7.2
      let fd := (create_realistic_applicant s).1
      (fd.parking.wants_parking = decide (s.floats s.fIdx < PARKING_PROBABILITY))
      ∧ (fd.parking.wants_parking = false → fd.parking = {})
      ∧ (fd.wants_car_sharing
          = decide ((hh.2).floats (hh.2).fIdx < CAR_SHARING_PROBABILITY))
      ∧ (fd.wants_motorbike_parking
          = decide ((c1.2).floats (c1.2).fIdx < MOTORBIKE_PROBABILITY))
      ∧ (fd.wants_motorbike_parking = true → fd.motorbike_spaces = 1)
      ∧ (fd.wants_motorbike_parking = false → fd.motorbike_spaces = 0)
      ∧ (fd.wants_bike_parking
          = decide ((c2.2).floats (c2.2).fIdx < BIKE_PARKING_PROBABILITY))
      ∧ (fd.wants_bike_parking = true → 1 ≤ fd.bike_spaces ∧ fd.bike_spaces ≤ 3)
      ∧ (fd.wants_bike_parking = false →
          fd.bike_spaces = 0 ∧ fd.electric_bike_spaces = 0)
      ∧ (fd.wants_additional_room
          = decide ((c3.2).floats (c3.2).fIdx < ADDITIONAL_ROOM_PROBABILITY))
      ∧ (fd.wants_additional_room = false →
          fd.additional_room_purpose = none ∧ fd.additional_room_area = none)
      ∧ (fd.wants_storage_room
          = decide ((c4.2).floats (c4.2).fIdx < STORAGE_ROOM_PROBABILITY))
      ∧ (fd.wants_storage_room = false →
          fd.storage_room_purpose = none ∧ fd.storage_room_area = none)
      ∧ (fd.wants_workshop
          = decide ((c5.2).floats (c5.2).fIdx < WORKSHOP_PROBABILITY))
      ∧ (fd.wants_workshop = false → fd.workshop_purpose = none)
      ∧ (fd.wants_coworking
          = decide ((c6.2).floats (c6.2).fIdx < COWORKING_PROBABILITY))
      ∧ (fd.wants_home_office
          = decide ((c7.2).floats (c7.2).fIdx < HOME_OFFICE_PROBABILITY))
      ∧ (fd.wants_home_office = false → fd.home_office_reason = none)
      ∧ (fd.needs_obstacle_free
          = decide ((c8.2).floats (c8.2).fIdx < ACCESSIBILITY_PROBABILITY)) := by
  intro s
  dsimp only
  simp only [create_realistic_applicant]
  refine ⟨?_, ?_, ?_, ?_, ?_, ?_, ?_, ?_, ?_, ?_, ?_, ?_, ?_, ?_, ?_, ?_, ?_, ?_, ?_⟩
  · simp only [obstacleStep_parking, homeOfficeStep_parking, coworkingStep_parking,
      workshopStep_parking, storageStep_parking, addRoomStep_parking, bikeStep_parking,
      motorbikeStep_parking, carSharingStep_parking]
    by_cases hp : s.floats s.fIdx < PARKING_PROBABILITY
    · rw [parkingStep_taken_wants s hp]
      simp [hp]
    · rw [parkingStep_not_taken s hp]
      simp [hp]
  · intro h
    simp only [obstacleStep_parking, homeOfficeStep_parking, coworkingStep_parking,
      workshopStep_parking, storageStep_parking, addRoomStep_parking, bikeStep_parking,
      motorbikeStep_parking, carSharingStep_parking] at h ⊢
    by_cases hp : s.floats s.fIdx < PARKING_PROBABILITY
    · rw [parkingStep_taken_wants s hp] at h
      simp at h
    · rw [parkingStep_not_taken s hp]
  · simp
  · simp
  · intro h
    simp at h
    simp [h]
  · intro h
    simp at h
    simp [h]
  · simp
  · intro h
    simp at h
    simp only [obstacleStep_bike_spaces, homeOfficeStep_bike_spaces,
      coworkingStep_bike_spaces, workshopStep_bike_spaces, storageStep_bike_spaces,
      addRoomStep_bike_spaces, bikeStep_bike_spaces, motorbikeStep_bike_spaces,
      carSharingStep_bike_spaces, if_pos h]
    constructor <;> omega
  · intro h
    simp at h
    constructor
    · simp [h]
    · simp only [obstacleStep_electric_bike_spaces, homeOfficeStep_electric_bike_spaces,
        coworkingStep_electric_bike_spaces, workshopStep_electric_bike_spaces,
        storageStep_electric_bike_spaces, addRoomStep_electric_bike_spaces]
      rw [bikeStep_electric_bike_spaces_not_taken _ _ (not_lt.mpr h)]
      simp
  · simp
  · intro h
    simp at h
    constructor
    · simp only [obstacleStep_additional_room_purpose,
        homeOfficeStep_additional_room_purpose, coworkingStep_additional_room_purpose,
        workshopStep_additional_room_purpose, storageStep_additional_room_purpose]
      rw [addRoomStep_additional_room_purpose_not_taken _ _ (not_lt.mpr h)]
      simp
    · simp only [obstacleStep_additional_room_area,
        homeOfficeStep_additional_room_area, coworkingStep_additional_room_area,
        workshopStep_additional_room_area, storageStep_additional_room_area]
      rw [addRoomStep_additional_room_area_not_taken _ _ (not_lt.mpr h)]
      simp
  · simp
  · intro h
    simp at h
    constructor
    · simp only [obstacleStep_storage_room_purpose, homeOfficeStep_storage_room_purpose,
        coworkingStep_storage_room_purpose, workshopStep_storage_room_purpose]
      rw [storageStep_storage_room_purpose_not_taken _ _ (not_lt.mpr h)]
      simp
    · simp only [obstacleStep_storage_room_area, homeOfficeStep_storage_room_area,
        coworkingStep_storage_room_area, workshopStep_storage_room_area]
      rw [storageStep_storage_room_area_not_taken _ _ (not_lt.mpr h)]
      simp
  · simp
  · intro h
    simp at h
    simp only [obstacleStep_workshop_purpose, homeOfficeStep_workshop_purpose,
      coworkingStep_workshop_purpose]
    rw [workshopStep_workshop_purpose_not_taken _ _ (not_lt.mpr h)]
    simp
  · simp
  · simp
  · intro h
    simp at h
    simp only [obstacleStep_home_office_reason]
    rw [homeOfficeStep_home_office_reason_not_taken _ _ (not_lt.mpr h)]
    simp
  · simp

end ApartmentQA
